import Mathlib

/-!
Verification development for the fingerprint-synthesis and session-management
core of the repository.

The JavaScript source is shallowly embedded:

* `backend/models/Fingerprint.js` — the static `generateFingerprint`,
  `createForLead`, `generateUserAgent`, `updateUserAgentWithOS` and
  `updateUserAgentWithManufacturer` methods become pure Lean functions.
  Every call to `Math.floor(Math.random() * n)` is modelled by an integer
  parameter carried in a `Choices` record; the possible outcomes of such a
  call are exactly the integers in `floorRangeB n` (for `r ∈ [0,1)`,
  `⌊r*n⌋ ∈ [0, n-1]` when `n > 0` and `⌊r*n⌋ ∈ [n, 0]` when `n ≤ 0`), which
  theorems assume where the drawn value matters.  The one real-valued draw
  (`devicePixelRatio`) is modelled as an opaque integer choice; no claim
  depends on its value.  JavaScript `x || d` defaulting on numbers (where
  `0` is falsy) is `jsOrI`, on strings (where `""` is falsy) `jsOrS`.

* `backend/services/sessionManagementService.js` — the service becomes a
  family of state-transition functions over `SvcState`, which packages the
  session-file directory (an association list keyed by file path, mirroring
  the JSON blobs on disk), the Lead documents of the external store (a
  lookup function, mirroring `Lead.findById`/`findByIdAndUpdate`), and the
  list of spawned browser-driver processes.  An unparseable session file is
  `FileContent.corrupt`; a missing or inaccessible file is absence from the
  association list.  `Date.now()`/`new Date()` values are integer
  milliseconds passed explicitly.
-/

namespace Repo

/-- JavaScript `x || d` for an optional number: `undefined`/`null`/`0` fall
back to the default. -/
def jsOrI : Option Int → Int → Int
  | none, d => d
  | some v, d => if v = 0 then d else v

/-- JavaScript `x || d` for an optional string: `undefined`/`null`/`""` fall
back to the default. -/
def jsOrS : Option String → String → String
  | none, d => d
  | some v, d => if v = "" then d else v

/-- JavaScript `x || null` for an optional string. -/
def jsOrNull : Option String → Option String
  | none => none
  | some v => if v = "" then none else some v

/-- The set of outcomes of `Math.floor(Math.random() * n)` for `r ∈ [0,1)`:
`[0, n-1]` when `n > 0`, and `[n, 0]` when `n ≤ 0` (the multiplication is
negative or zero, so the floor lands between `n` and `0`). -/
def floorRangeB (n k : Int) : Bool :=
  if 0 < n then decide (0 ≤ k) && decide (k ≤ n - 1)
  else decide (n ≤ k) && decide (k ≤ 0)

/-! ## Fingerprint data model (`backend/models/Fingerprint.js`) -/

/-- `browser` block of a device configuration. -/
structure BrowserCfg where
  name : String
  version : String
deriving DecidableEq, Repr

/-- `screen` block of a device configuration.  `colorDepth`/`pixelDepth` are
absent from the per-category defaults (the output applies `|| 24`), hence
`Option`.  `devicePixelRatioVal` models the source's `devicePixelRatio`
property. -/
structure ScreenCfg where
  width : Int
  height : Int
  availWidth : Int
  availHeight : Int
  colorDepth : Option Int := none
  pixelDepth : Option Int := none
  devicePixelRatioVal : Int
deriving DecidableEq, Repr

/-- `navigator` block of a device configuration. -/
structure NavCfg where
  userAgent : String
  platform : String
  hardwareConcurrency : Int
  deviceMemory : Int
  maxTouchPoints : Int
deriving DecidableEq, Repr

/-- `mobile` block of a device configuration. -/
structure MobileCfg where
  isMobile : Bool
  isTablet : Bool
deriving DecidableEq, Repr

/-- One entry of the `deviceConfigs` table built at the top of
`generateFingerprint`. -/
structure Config where
  screen : ScreenCfg
  nav : NavCfg
  mobile : MobileCfg
  browser : BrowserCfg
deriving DecidableEq, Repr

/-- `deviceConfigs.windows`. -/
def windowsConfig : Config where
  screen := { width := 1920, height := 1080, availWidth := 1920, availHeight := 1040, devicePixelRatioVal := 1 }
  nav := { userAgent := "Mozilla/5.0 (Windows NT 10.0; Win64; x64) AppleWebKit/537.36 (KHTML, like Gecko) Chrome/120.0.0.0 Safari/537.36",
           platform := "Win32", hardwareConcurrency := 8, deviceMemory := 8, maxTouchPoints := 0 }
  mobile := { isMobile := false, isTablet := false }
  browser := { name := "chrome", version := "120.0.0.0" }

/-- `deviceConfigs.android`. -/
def androidConfig : Config where
  screen := { width := 428, height := 926, availWidth := 428, availHeight := 926, devicePixelRatioVal := 3 }
  nav := { userAgent := "Mozilla/5.0 (Linux; Android 14; SM-G998B) AppleWebKit/537.36 (KHTML, like Gecko) Chrome/120.0.0.0 Mobile Safari/537.36",
           platform := "Linux armv8l", hardwareConcurrency := 8, deviceMemory := 8, maxTouchPoints := 10 }
  mobile := { isMobile := true, isTablet := false }
  browser := { name := "chrome", version := "120.0.0.0" }

/-- `deviceConfigs.ios`. -/
def iosConfig : Config where
  screen := { width := 428, height := 926, availWidth := 428, availHeight := 926, devicePixelRatioVal := 3 }
  nav := { userAgent := "Mozilla/5.0 (iPhone; CPU iPhone OS 17_0 like Mac OS X) AppleWebKit/605.1.15 (KHTML, like Gecko) Version/17.0 Mobile/15E148 Safari/604.1",
           platform := "iPhone", hardwareConcurrency := 6, deviceMemory := 6, maxTouchPoints := 5 }
  mobile := { isMobile := true, isTablet := false }
  browser := { name := "safari", version := "17.0" }

/-- `deviceConfigs.mac`. -/
def macConfig : Config where
  screen := { width := 2560, height := 1440, availWidth := 2560, availHeight := 1400, devicePixelRatioVal := 2 }
  nav := { userAgent := "Mozilla/5.0 (Macintosh; Intel Mac OS X 10_15_7) AppleWebKit/537.36 (KHTML, like Gecko) Chrome/120.0.0.0 Safari/537.36",
           platform := "MacIntel", hardwareConcurrency := 8, deviceMemory := 16, maxTouchPoints := 0 }
  mobile := { isMobile := false, isTablet := false }
  browser := { name := "chrome", version := "120.0.0.0" }

/-- `deviceConfigs[deviceType] || deviceConfigs.windows` (line 293): an
unknown category silently falls back to the windows configuration. -/
def configFor (dt : String) : Config :=
  if dt = "windows" then windowsConfig
  else if dt = "android" then androidConfig
  else if dt = "ios" then iosConfig
  else if dt = "mac" then macConfig
  else windowsConfig

/-- A `min`/`max` numeric range of the constraint spec. -/
structure RangeSpec where
  min : Option Int := none
  max : Option Int := none
deriving DecidableEq, Repr

/-- `hardware.memory` of the constraint spec. -/
structure MemorySpec where
  min : Option Int := none
  max : Option Int := none
  preferred : List Int := []
deriving DecidableEq, Repr

/-- `hardware.cpu` of the constraint spec. -/
structure CpuSpec where
  cores : Option RangeSpec := none
deriving DecidableEq, Repr

/-- `hardware` block of the constraint spec. -/
structure HardwareSpec where
  memory : Option MemorySpec := none
  cpu : Option CpuSpec := none
deriving DecidableEq, Repr

/-- `display.resolution` of the constraint spec. -/
structure ResolutionSpec where
  width : Option RangeSpec := none
  height : Option RangeSpec := none
deriving DecidableEq, Repr

/-- `display` block of the constraint spec.  `pixelRatioSpec` models the
source's `pixelRatio` range. -/
structure DisplaySpec where
  resolution : Option ResolutionSpec := none
  pixelRatioSpec : Option RangeSpec := none
  colorDepth : List Int := []
deriving DecidableEq, Repr

/-- A per-browser version range (`versions[browserType]`); only `max` is read
by the source. -/
structure VersionRange where
  min : Option String := none
  max : Option String := none
deriving DecidableEq, Repr

/-- `browser` block of the constraint spec; `versions` is the object keyed by
browser name, modelled as an association list. -/
structure BrowserSpec where
  types : List String := []
  versions : List (String × VersionRange) := []
deriving DecidableEq, Repr

/-- Per-category `operatingSystem` entry; `generateFingerprint` reads only
`versions` and (for android) `manufacturers`. -/
structure OsSpec where
  versions : List String := []
  manufacturers : List String := []
deriving DecidableEq, Repr

/-- `characteristics` block; `generateFingerprint` reads only
`touchSupport`. -/
structure Characteristics where
  touchSupport : String := "optional"
deriving DecidableEq, Repr

/-- The `deviceSpecs` argument of `generateFingerprint` (the ConstraintSpec).
`operatingSystem` is the object keyed by device category, modelled as an
association list. -/
structure DeviceSpecs where
  hardware : Option HardwareSpec := none
  display : Option DisplaySpec := none
  browser : Option BrowserSpec := none
  operatingSystem : List (String × OsSpec) := []
  characteristics : Option Characteristics := none
deriving DecidableEq, Repr

/-- The random draws of one `generateFingerprint` run.  Each `*Draw` field is
the result of a `Math.floor(Math.random() * n)` call (constrained by
`floorRangeB` in theorems where its value matters); each `*Pick` field is a
random index into the corresponding list; the `jitter*` fields index the
variation arrays; `pixelDraw` abstracts the real-valued pixel-ratio draw;
the tokens and `nowMs` model `Math.random().toString(36)` and `Date.now()`. -/
structure Choices where
  memPick : Nat := 0
  memDraw : Int := 0
  coresDraw : Int := 0
  widthDraw : Int := 0
  heightDraw : Int := 0
  pixelDraw : Int := 1
  colorPick : Nat := 0
  browserPick : Nat := 0
  osVersionPick : Nat := 0
  manufacturerPick : Nat := 0
  jitterW : Nat := 0
  jitterH : Nat := 0
  jitterC : Nat := 0
  jitterM : Nat := 0
  deviceIdToken : String := ""
  canvasToken : String := ""
  audioToken : String := ""
  nowMs : Int := 0
deriving DecidableEq, Repr

/-- Association-list lookup, modelling JavaScript `obj[key]`. -/
def lookupAssoc {α : Type} (l : List (String × α)) (k : String) : Option α :=
  (l.find? (fun e => e.1 == k)).map (fun e => e.2)

/-- Replace the first occurrence of `pat` in `s` by `repl`, the semantics of
JavaScript `String.prototype.replace` with a string pattern. -/
def jsReplaceFirst (s pat repl : String) : String :=
  match s.splitOn pat with
  | [] => s
  | [_] => s
  | a :: rest => a ++ repl ++ String.intercalate pat rest

def isUpperLetter (c : Char) : Bool := 'A' ≤ c && c ≤ 'Z'

def isUpperOrDigit (c : Char) : Bool := isUpperLetter c || ('0' ≤ c && c ≤ '9')

/-- Length of the match of the regex `[A-Z]{2}-[A-Z0-9]+` anchored at the head
of the character list, if any. -/
def devicePatMatchLen : List Char → Option Nat
  | a :: b :: '-' :: rest =>
    if isUpperLetter a && isUpperLetter b then
      let tail := rest.takeWhile isUpperOrDigit
      if tail.isEmpty then none else some (3 + tail.length)
    else none
  | _ => none

/-- Scan the characters left to right, replacing every (leftmost,
non-overlapping, greedy) match of `[A-Z]{2}-[A-Z0-9]+` with `repl`:
JavaScript `replace(/[A-Z]{2}-[A-Z0-9]+/g, repl)`.  `fuel` bounds the
recursion by the initial length. -/
def replaceDevicePat (repl : List Char) : Nat → List Char → List Char
  | 0, l => l
  | _ + 1, [] => []
  | fuel + 1, c :: rest =>
    match devicePatMatchLen (c :: rest) with
    | some n => repl ++ replaceDevicePat repl fuel (List.drop n (c :: rest))
    | none => c :: replaceDevicePat repl fuel rest

/-- The `deviceModels` table of `updateUserAgentWithManufacturer`. -/
def deviceModels : List (String × String) :=
  [("Samsung", "SM-G998B"), ("Google", "Pixel 6"), ("Xiaomi", "Mi 11"),
   ("OnePlus", "OnePlus 9"), ("Huawei", "P50 Pro"), ("LG", "LG-H870"),
   ("Sony", "SO-01M")]

/-- `updateUserAgentWithManufacturer` (lines 569-582). -/
def updateUserAgentWithManufacturer (userAgent manufacturer : String) : String :=
  let model := (lookupAssoc deviceModels manufacturer).getD "SM-G998B"
  String.mk (replaceDevicePat model.toList userAgent.toList.length userAgent.toList)

/-- `updateUserAgentWithOS` (lines 550-566). -/
def updateUserAgentWithOS (userAgent dt osVersion : String) : String :=
  if dt = "windows" then
    if osVersion = "Windows 11" then jsReplaceFirst userAgent "Windows NT 10.0" "Windows NT 10.0"
    else userAgent
  else if dt = "android" then
    jsReplaceFirst userAgent "Android 14" ("Android " ++ osVersion)
  else if dt = "ios" then
    jsReplaceFirst userAgent "17_0" (osVersion.map (fun c => if c = '.' then '_' else c))
  else if dt = "mac" then
    jsReplaceFirst userAgent "10_15_7" "10_15_7"
  else userAgent

/-- The `baseUserAgents` table of `generateUserAgent`, as a partial lookup:
`baseUserAgents[deviceType]?.[browserType]` with the version spliced in. -/
def baseUserAgent (dt bt version : String) : Option String :=
  if dt = "windows" then
    if bt = "chrome" then some ("Mozilla/5.0 (Windows NT 10.0; Win64; x64) AppleWebKit/537.36 (KHTML, like Gecko) Chrome/" ++ version ++ " Safari/537.36")
    else if bt = "firefox" then some ("Mozilla/5.0 (Windows NT 10.0; Win64; x64; rv:" ++ version ++ ") Gecko/20100101 Firefox/" ++ version)
    else if bt = "edge" then some ("Mozilla/5.0 (Windows NT 10.0; Win64; x64) AppleWebKit/537.36 (KHTML, like Gecko) Chrome/" ++ version ++ " Edg/" ++ version)
    else none
  else if dt = "android" then
    if bt = "chrome" then some ("Mozilla/5.0 (Linux; Android 14; SM-G998B) AppleWebKit/537.36 (KHTML, like Gecko) Chrome/" ++ version ++ " Mobile Safari/537.36")
    else if bt = "firefox" then some ("Mozilla/5.0 (Mobile; rv:" ++ version ++ ") Gecko/" ++ version ++ " Firefox/" ++ version)
    else none
  else if dt = "ios" then
    if bt = "safari" then some ("Mozilla/5.0 (iPhone; CPU iPhone OS 17_0 like Mac OS X) AppleWebKit/605.1.15 (KHTML, like Gecko) Version/" ++ version ++ " Mobile/15E148 Safari/604.1")
    else if bt = "chrome" then some ("Mozilla/5.0 (iPhone; CPU iPhone OS 17_0 like Mac OS X) AppleWebKit/605.1.15 (KHTML, like Gecko) CriOS/" ++ version ++ " Mobile/15E148 Safari/604.1")
    else none
  else if dt = "mac" then
    if bt = "chrome" then some ("Mozilla/5.0 (Macintosh; Intel Mac OS X 10_15_7) AppleWebKit/537.36 (KHTML, like Gecko) Chrome/" ++ version ++ " Safari/537.36")
    else if bt = "safari" then some ("Mozilla/5.0 (Macintosh; Intel Mac OS X 10_15_7) AppleWebKit/605.1.15 (KHTML, like Gecko) Version/" ++ version ++ " Safari/605.1.15")
    else if bt = "firefox" then some ("Mozilla/5.0 (Macintosh; Intel Mac OS X 10.15; rv:" ++ version ++ ") Gecko/20100101 Firefox/" ++ version)
    else none
  else none

/-- `generateUserAgent` (lines 524-547): per-category template, falling back
to the category's chrome template and then to the windows chrome template.
The source takes a fourth `deviceSpecs` argument that its body never reads;
it is omitted here. -/
def generateUserAgent (dt bt version : String) : String :=
  match baseUserAgent dt bt version with
  | some ua => ua
  | none =>
    match baseUserAgent dt "chrome" version with
    | some ua => ua
    | none => (baseUserAgent "windows" "chrome" version).getD ""

/-- Lines 301-325: apply `deviceSpecs.hardware`; only `navigator` fields
(`deviceMemory`, `hardwareConcurrency`) are written. -/
def applyHardwareNav (nv : NavCfg) (hw : HardwareSpec) (ch : Choices) : NavCfg :=
  { nv with
    deviceMemory :=
      match hw.memory with
      | none => nv.deviceMemory
      | some m =>
        if 0 < m.preferred.length then m.preferred.getD ch.memPick 0
        else ch.memDraw + jsOrI m.min 4,
    hardwareConcurrency :=
      match hw.cpu with
      | none => nv.hardwareConcurrency
      | some c =>
        match c.cores with
        | none => nv.hardwareConcurrency
        | some cr => ch.coresDraw + jsOrI cr.min 2 }

/-- Lines 301-325 at the config level. -/
def applyHardware (cfg : Config) (hw : HardwareSpec) (ch : Choices) : Config :=
  { cfg with nav := applyHardwareNav cfg.nav hw ch }

/-- Lines 327-360: apply `deviceSpecs.display`; only `screen` fields are
written. -/
def applyDisplayScreen (sc : ScreenCfg) (d : DisplaySpec) (ch : Choices) : ScreenCfg :=
  let sc :=
    match d.resolution with
    | none => sc
    | some res =>
      let sc :=
        match res.width with
        | none => sc
        | some wr =>
          let w := ch.widthDraw + jsOrI wr.min 1280
          { sc with width := w, availWidth := w }
      match res.height with
      | none => sc
      | some hr =>
        let h := ch.heightDraw + jsOrI hr.min 720
        { sc with height := h, availHeight := h - 40 }
  let sc :=
    match d.pixelRatioSpec with
    | none => sc
    | some _ => { sc with devicePixelRatioVal := ch.pixelDraw }
  if 0 < d.colorDepth.length then
    let cd := d.colorDepth.getD ch.colorPick 0
    { sc with colorDepth := some cd, pixelDepth := some cd }
  else sc

/-- Lines 327-360 at the config level. -/
def applyDisplay (cfg : Config) (d : DisplaySpec) (ch : Choices) : Config :=
  { cfg with screen := applyDisplayScreen cfg.screen d ch }

/-- Lines 362-376: apply `deviceSpecs.browser` — pick a browser type, take
the `max` of its version range when given, and regenerate the user-agent
string from the (updated) version. -/
def applyBrowser (dt : String) (cfg : Config) (b : BrowserSpec) (ch : Choices) : Config :=
  if 0 < b.types.length then
    let browserType := b.types.getD ch.browserPick ""
    let version :=
      match lookupAssoc b.versions browserType with
      | none => cfg.browser.version
      | some vr => jsOrS vr.max cfg.browser.version
    { cfg with browser := { name := browserType, version := version },
               nav := { cfg.nav with userAgent := generateUserAgent dt browserType version } }
  else cfg

/-- Lines 378-393: the user-agent rewrite driven by
`deviceSpecs.operatingSystem[deviceType]`. -/
def applyOsUA (dt ua : String) (os : OsSpec) (ch : Choices) : String :=
  let ua :=
    if 0 < os.versions.length then
      updateUserAgentWithOS ua dt (os.versions.getD ch.osVersionPick "")
    else ua
  if dt = "android" && 0 < os.manufacturers.length then
    updateUserAgentWithManufacturer ua (os.manufacturers.getD ch.manufacturerPick "")
  else ua

/-- Lines 378-393 at the config level; only `navigator.userAgent` is
written. -/
def applyOs (dt : String) (cfg : Config) (os : OsSpec) (ch : Choices) : Config :=
  { cfg with nav := { cfg.nav with userAgent := applyOsUA dt cfg.nav.userAgent os ch } }

/-- Lines 395-406: the `touchSupport` adjustment of `maxTouchPoints`. -/
def touchPointsFor (cs : Characteristics) (current : Int) : Int :=
  if cs.touchSupport = "required" then max 1 current
  else if cs.touchSupport = "disabled" then 0
  else current

/-- Lines 395-406 at the config level; only `navigator.maxTouchPoints` is
written. -/
def applyCharacteristics (cfg : Config) (cs : Characteristics) : Config :=
  { cfg with nav := { cfg.nav with maxTouchPoints := touchPointsFor cs cfg.nav.maxTouchPoints } }

/-- Lines 301-407: the constraint-resolution phase of `generateFingerprint` —
apply the provided `deviceSpecs` blocks, in source order, to the
category-default config. -/
def applySpecs (dt : String) (cfg : Config) (specs : Option DeviceSpecs) (ch : Choices) : Config :=
  match specs with
  | none => cfg
  | some ds =>
    let cfg := match ds.hardware with
      | none => cfg
      | some hw => applyHardware cfg hw ch
    let cfg := match ds.display with
      | none => cfg
      | some d => applyDisplay cfg d ch
    let cfg := match ds.browser with
      | none => cfg
      | some b => applyBrowser dt cfg b ch
    let cfg := match lookupAssoc ds.operatingSystem dt with
      | none => cfg
      | some os => applyOs dt cfg os ch
    match ds.characteristics with
    | none => cfg
    | some cs => applyCharacteristics cfg cs

/-- `variations.screenWidth` / `variations.screenHeight` (lines 411-412). -/
def screenVariations : List Int := [-2, -1, 0, 1, 2]

/-- `variations.hardwareConcurrency` (line 413). -/
def coreVariations (dt : String) : List Int :=
  if dt = "android" || dt = "ios" then [0, 1, -1] else [0, 1, -1, 2, -2]

/-- `variations.deviceMemory` (line 414). -/
def memVariations : List Int := [0, 1, -1]

/-- `randomVariation` (lines 417-420): add a randomly indexed variation,
clamped below at 1. -/
def randomVariation (base : Int) (vars : List Int) (idx : Nat) : Int :=
  max 1 (base + vars.getD idx 0)

/-- `true` when `deviceSpecs.display.resolution` is present (the condition
under which the width/height jitter of lines 423-428 is skipped). -/
def resolutionConstrained (specs : Option DeviceSpecs) : Bool :=
  match specs with
  | none => false
  | some ds =>
    match ds.display with
    | none => false
    | some d => d.resolution.isSome

/-- `true` when `deviceSpecs.hardware.cpu` is present (the condition under
which the core-count jitter of lines 430-432 is skipped). -/
def cpuConstrained (specs : Option DeviceSpecs) : Bool :=
  match specs with
  | none => false
  | some ds =>
    match ds.hardware with
    | none => false
    | some hw => hw.cpu.isSome

/-- `true` when `deviceSpecs.hardware.memory` is present (the condition under
which the memory jitter of lines 434-436 is skipped). -/
def memoryConstrained (specs : Option DeviceSpecs) : Bool :=
  match specs with
  | none => false
  | some ds =>
    match ds.hardware with
    | none => false
    | some hw => hw.memory.isSome

/-- Lines 409-436: the jitter phase — small random variations applied only to
fields whose spec block is absent. -/
def applyJitter (dt : String) (specs : Option DeviceSpecs) (ch : Choices) (cfg : Config) : Config :=
  let cfg :=
    if resolutionConstrained specs then cfg
    else
      let w := randomVariation cfg.screen.width screenVariations ch.jitterW
      let h := randomVariation cfg.screen.height screenVariations ch.jitterH
      { cfg with screen := { cfg.screen with width := w, height := h, availWidth := w, availHeight := h - 40 } }
  let cfg :=
    if cpuConstrained specs then cfg
    else { cfg with nav := { cfg.nav with hardwareConcurrency := randomVariation cfg.nav.hardwareConcurrency (coreVariations dt) ch.jitterC } }
  if memoryConstrained specs then cfg
  else { cfg with nav := { cfg.nav with deviceMemory := randomVariation cfg.nav.deviceMemory memVariations ch.jitterM } }

/-- One entry of the output `plugins` list. -/
structure Plugin where
  name : String
  filename : String
  description : String
  version : String
deriving DecidableEq, Repr

/-- The single desktop plugin of lines 471-478. -/
def pdfPlugin : Plugin where
  name := "Chrome PDF Plugin"
  filename := "internal-pdf-viewer"
  description := "Portable Document Format"
  version := "1.0"

/-- `screen` block of the synthesized fingerprint. -/
structure FPScreen where
  width : Int
  height : Int
  availWidth : Int
  availHeight : Int
  colorDepth : Int
  pixelDepth : Int
  devicePixelRatioVal : Int
deriving DecidableEq, Repr

/-- `navigator` block of the synthesized fingerprint. -/
structure FPNavigator where
  userAgent : String
  platform : String
  language : String
  languages : List String
  vendor : String
  product : String
  hardwareConcurrency : Int
  deviceMemory : Int
  maxTouchPoints : Int
deriving DecidableEq, Repr

/-- The synthesized fingerprint document (lines 438-489). -/
structure Fingerprint where
  deviceId : String
  deviceType : String
  browser : BrowserCfg
  screen : FPScreen
  nav : FPNavigator
  webglVendor : String
  webglRenderer : String
  webglVersion : String
  webglShading : String
  canvasFingerprint : String
  audioFingerprint : String
  timezone : String
  plugins : List Plugin
  mobile : MobileCfg
  cookieEnabled : Bool
  doNotTrack : Option String
  localStorageOn : Bool
  sessionStorageOn : Bool
  indexedDBOn : Bool
  leadId : Option String
  createdBy : String
  lastUsedAt : Int
deriving DecidableEq, Repr

/-- `generateFingerprint` (lines 241-490): category defaults, constraint
resolution, jitter, then assembly of the output document. -/
def generateFingerprint (dt createdBy : String) (specs : Option DeviceSpecs) (ch : Choices) : Fingerprint :=
  let cfg := applyJitter dt specs ch (applySpecs dt (configFor dt) specs ch)
  { deviceId := dt ++ "_" ++ toString ch.nowMs ++ "_" ++ ch.deviceIdToken
    deviceType := dt
    browser := cfg.browser
    screen := { width := cfg.screen.width, height := cfg.screen.height,
                availWidth := cfg.screen.availWidth, availHeight := cfg.screen.availHeight,
                colorDepth := jsOrI cfg.screen.colorDepth 24, pixelDepth := jsOrI cfg.screen.pixelDepth 24,
                devicePixelRatioVal := cfg.screen.devicePixelRatioVal }
    nav := { userAgent := cfg.nav.userAgent, platform := cfg.nav.platform,
             language := "en-US", languages := ["en-US", "en"],
             vendor := if cfg.browser.name = "chrome" then "Google Inc." else "",
             product := "Gecko",
             hardwareConcurrency := cfg.nav.hardwareConcurrency,
             deviceMemory := cfg.nav.deviceMemory,
             maxTouchPoints := cfg.nav.maxTouchPoints }
    webglVendor := "WebKit"
    webglRenderer := "WebKit WebGL"
    webglVersion := "WebGL 1.0"
    webglShading := "WebGL GLSL ES 1.0"
    canvasFingerprint := ch.canvasToken
    audioFingerprint := ch.audioToken
    timezone := "America/New_York"
    plugins := if dt = "windows" || dt = "mac" then [pdfPlugin] else []
    mobile := cfg.mobile
    cookieEnabled := true
    doNotTrack := none
    localStorageOn := true
    sessionStorageOn := true
    indexedDBOn := true
    leadId := none
    createdBy := createdBy
    lastUsedAt := ch.nowMs }

/-- The validation errors thrown by `createForLead` (lines 493-521). -/
inductive CreateError where
  | leadIdRequired
  | deviceTypeRequired
  | createdByRequired
  | invalidDeviceType (dt : String)
  | fingerprintExists
deriving DecidableEq, Repr

/-- The `validDeviceTypes` enum of line 506. -/
def validDeviceTypes : List String := ["windows", "android", "ios", "mac"]

/-- `createForLead` (lines 493-521): validate arguments and category, reject a
duplicate fingerprint for the lead, then generate and link the fingerprint.
The store is the list of existing fingerprints (`findOne({ leadId })`
becomes a scan).  Missing JavaScript arguments are falsy, modelled as `""`. -/
def createForLead (store : List Fingerprint) (leadId dt createdBy : String)
    (specs : Option DeviceSpecs) (ch : Choices) : Except CreateError Fingerprint :=
  if leadId = "" then .error .leadIdRequired
  else if dt = "" then .error .deviceTypeRequired
  else if createdBy = "" then .error .createdByRequired
  else if ¬ validDeviceTypes.contains dt then .error (.invalidDeviceType dt)
  else if store.any (fun f => f.leadId == some leadId) then .error .fingerprintExists
  else .ok { generateFingerprint dt createdBy specs ch with leadId := some leadId }

/-! ## Session management (`backend/services/sessionManagementService.js`) -/

/-- The payload stored inside a session record (lines 57-65).  Cookies,
storage maps and the viewport are opaque to the service and modelled as
strings / association lists. -/
structure SessionPayload where
  cookies : List String := []
  localStorage : List (String × String) := []
  sessionStorage : List (String × String) := []
  userAgent : Option String := none
  viewport : Option String := none
  deviceFingerprint : Option String := none
  finalDomain : Option String := none
deriving DecidableEq, Repr

/-- The raw `sessionData` argument to `storeSession`, before the `||`
defaults of lines 58-64 are applied. -/
structure SessionInput where
  cookies : Option (List String) := none
  localStorage : Option (List (String × String)) := none
  sessionStorage : Option (List (String × String)) := none
  userAgent : Option String := none
  viewport : Option String := none
  deviceFingerprint : Option String := none
  finalDomain : Option String := none
deriving DecidableEq, Repr

/-- A stored session record, the JSON document written per capture
(lines 52-68, extended by `assignSessionToAgent`). -/
structure SessionRecord where
  sessionId : String
  leadId : String
  orderId : String
  createdAt : Int
  sessionData : SessionPayload
  status : String
  lastUsed : Int
  assignedAgent : Option String := none
  assignedAt : Option Int := none
deriving DecidableEq, Repr

/-- Content of a session file: a parseable record, or unparseable JSON. -/
inductive FileContent where
  | record (r : SessionRecord)
  | corrupt
deriving DecidableEq, Repr

/-- The `sessionData` back-reference stored on a Lead document.  Mongo `$set`
with dotted paths can create the object with only some fields, so every
field carries a falsy/absent default. -/
structure LeadSessionData where
  sessionId : String := ""
  sessionPath : String := ""
  createdAt : Option Int := none
  status : String := ""
  assignedAgent : Option String := none
  assignedAt : Option Int := none
deriving DecidableEq, Repr

/-- The fields of a Lead document that the service reads or writes.  Missing
string fields are falsy, modelled as `""`. -/
structure Lead where
  sessionData : Option LeadSessionData := none
  assignedTo : Option String := none
  assignedAt : Option Int := none
  isAssigned : Bool := false
  firstName : String := ""
  lastName : String := ""
  newEmail : String := ""
  newPhone : String := ""
  phone : String := ""
  country : String := ""
deriving DecidableEq, Repr

/-- The `leadInfo` block packaged for the browser launcher (lines 257-263). -/
structure LeadInfo where
  firstName : String
  lastName : String
  email : String
  phone : String
  country : String
deriving DecidableEq, Repr

/-- The `browserLaunchData` document handed to the spawned driver process
(lines 253-264). -/
structure LaunchData where
  leadId : String
  agentId : String
  sessionData : SessionPayload
  leadInfo : LeadInfo
deriving DecidableEq, Repr

/-- Service state: session files on disk (association list keyed by path),
the Lead documents of the store, and the launch requests dispatched to the
external driver. -/
structure SvcState where
  files : List (String × FileContent)
  leads : String → Option Lead
  spawned : List LaunchData := []

/-- Read a file: `fs.readFile`/`fs.access` succeed exactly when the path is
present. -/
def fsRead (fs : List (String × FileContent)) (p : String) : Option FileContent :=
  (fs.find? (fun e => e.1 == p)).map (fun e => e.2)

/-- Write a file, overwriting any entry at the same path. -/
def fsWrite (fs : List (String × FileContent)) (p : String) (c : FileContent) :
    List (String × FileContent) :=
  if fs.any (fun e => e.1 == p) then
    fs.map (fun e => if e.1 == p then (p, c) else e)
  else fs ++ [(p, c)]

/-- Delete a file (`fs.unlink`). -/
def fsDelete (fs : List (String × FileContent)) (p : String) : List (String × FileContent) :=
  fs.filter (fun e => !(e.1 == p))

/-- `this.sessionsDir`, as a path prefix. -/
def sessionsDir : String := "browser_sessions/"

/-- `generateSessionId` (lines 34-38); the timestamp and the random hex token
are explicit parameters. -/
def generateSessionId (leadId orderId : String) (now : Int) (rand : String) : String :=
  "session_" ++ leadId ++ "_" ++ orderId ++ "_" ++ toString now ++ "_" ++ rand

/-- Result of `storeSession` (lines 85-90). -/
structure StoreResult where
  success : Bool
  sessionId : String
  sessionPath : String
deriving DecidableEq, Repr

/-- `storeSession` (lines 47-96): build the record (applying the `||`
defaults), write the session file, and `$set` the four back-reference
fields on the lead (`findByIdAndUpdate` is a no-op when the lead is
missing, and dotted `$set` preserves any other `sessionData` fields such as
`assignedAgent`).  The source performs no duplicate-session check. -/
def storeSession (leadId orderId : String) (input : SessionInput) (now : Int) (rand : String)
    (s : SvcState) : StoreResult × SvcState :=
  let sessionId := generateSessionId leadId orderId now rand
  let sessionPath := sessionsDir ++ sessionId ++ ".json"
  let payload : SessionPayload :=
    { cookies := input.cookies.getD []
      localStorage := input.localStorage.getD []
      sessionStorage := input.sessionStorage.getD []
      userAgent := jsOrNull input.userAgent
      viewport := jsOrNull input.viewport
      deviceFingerprint := jsOrNull input.deviceFingerprint
      finalDomain := jsOrNull input.finalDomain }
  let record : SessionRecord :=
    { sessionId := sessionId, leadId := leadId, orderId := orderId, createdAt := now,
      sessionData := payload, status := "active", lastUsed := now }
  let leads := fun k =>
    if k = leadId then
      (s.leads k).map (fun l =>
        { l with
          sessionData := some (match l.sessionData with
            | some sd => { sd with sessionId := sessionId, sessionPath := sessionPath,
                                   createdAt := some now, status := "active" }
            | none => { sessionId := sessionId, sessionPath := sessionPath,
                        createdAt := some now, status := "active" }) })
    else s.leads k
  ({ success := true, sessionId := sessionId, sessionPath := sessionPath },
   { s with files := fsWrite s.files sessionPath (.record record), leads := leads })

/-- The failure kinds of `retrieveSession` (lines 103-141): the lead carries
no session reference (line 109), the backing file is missing or
inaccessible (line 118), or `JSON.parse` fails (line 123). -/
inductive RetrieveError where
  | noSessionData
  | fileUnavailable
  | parseFailure
deriving DecidableEq, Repr

/-- The spec's `SessionUnavailable` bucket: a storage read or parse failure,
as opposed to the absence of a session. -/
def isSessionUnavailable : RetrieveError → Bool
  | .noSessionData => false
  | .fileUnavailable => true
  | .parseFailure => true

/-- Result of `retrieveSession` (lines 129-135). -/
structure RetrieveResult where
  sessionData : SessionPayload
  sessionId : String
  createdAt : Int
  lastUsed : Int
deriving DecidableEq, Repr

/-- `retrieveSession` (lines 103-141): look up the lead's back-reference,
read and parse the session file, bump `lastUsed` in the stored record, and
return the payload. -/
def retrieveSession (leadId : String) (now : Int) (s : SvcState) :
    Except RetrieveError RetrieveResult × SvcState :=
  match s.leads leadId with
  | none => (.error .noSessionData, s)
  | some l =>
    match l.sessionData with
    | none => (.error .noSessionData, s)
    | some sd =>
      if sd.sessionId = "" then (.error .noSessionData, s)
      else
        match fsRead s.files sd.sessionPath with
        | none => (.error .fileUnavailable, s)
        | some .corrupt => (.error .parseFailure, s)
        | some (.record r) =>
          (.ok { sessionData := r.sessionData, sessionId := r.sessionId,
                 createdAt := r.createdAt, lastUsed := now },
           { s with files := fsWrite s.files sd.sessionPath (.record { r with lastUsed := now }) })

/-- `hasActiveSession` (lines 148-169): total boolean check — lead present,
back-reference present with a truthy `sessionId`, session file accessible,
and back-reference status `"active"`; every failure path returns `false`. -/
def hasActiveSession (leadId : String) (s : SvcState) : Bool :=
  match s.leads leadId with
  | none => false
  | some l =>
    match l.sessionData with
    | none => false
    | some sd =>
      if sd.sessionId = "" then false
      else
        match fsRead s.files sd.sessionPath with
        | none => false
        | some _ => sd.status == "active"

/-- Failure of `assignSessionToAgent` (line 193). -/
inductive AssignError where
  | leadNotFound
deriving DecidableEq, Repr

/-- Result of `assignSessionToAgent` (lines 211-217). -/
structure AssignResult where
  success : Bool
  leadId : String
  agentId : String
  sessionId : Option String
deriving DecidableEq, Repr

/-- Lines 196-209: the best-effort update of the session file after an agent
assignment — skipped when the back-reference has no (truthy) `sessionPath`,
and read/parse failures are only logged. -/
def assignFileUpdate (files : List (String × FileContent)) (path agentId : String) (now : Int) :
    List (String × FileContent) :=
  if path = "" then files
  else
    match fsRead files path with
    | some (.record r) =>
      fsWrite files path (.record { r with assignedAgent := some agentId, assignedAt := some now })
    | _ => files

/-- `assignSessionToAgent` (lines 177-223): `$set` the assignment fields on
the lead (creating the `sessionData` object when absent, as dotted `$set`
does), then best-effort update of the session file. -/
def assignSessionToAgent (leadId agentId : String) (now : Int) (s : SvcState) :
    Except AssignError AssignResult × SvcState :=
  match s.leads leadId with
  | none => (.error .leadNotFound, s)
  | some l =>
    let sd' : LeadSessionData :=
      match l.sessionData with
      | some sd => { sd with assignedAgent := some agentId, assignedAt := some now }
      | none => { assignedAgent := some agentId, assignedAt := some now }
    let l' : Lead := { l with assignedTo := some agentId, assignedAt := some now,
                              isAssigned := true, sessionData := some sd' }
    (.ok { success := true, leadId := leadId, agentId := agentId,
           sessionId := some sd'.sessionId },
     { files := assignFileUpdate s.files sd'.sessionPath agentId now,
       leads := fun k => if k = leadId then some l' else s.leads k,
       spawned := s.spawned })

/-- Failure kinds of `launchAgentBrowser` (lines 237-250): missing lead,
assignment mismatch (the spec's `AccessDenied`), or a failure of the inner
`retrieveSession` call. -/
inductive LaunchError where
  | leadNotFound
  | notAssigned
  | retrieveFailed (e : RetrieveError)
deriving DecidableEq, Repr

/-- Result of `launchAgentBrowser` (lines 310-319). -/
structure LaunchResult where
  success : Bool
  launchData : LaunchData
deriving DecidableEq, Repr

/-- `launchAgentBrowser` (lines 231-325): verify the caller is the assigned
agent, retrieve the session (bumping `lastUsed`), package the launch data
and spawn the driver process (appended to `spawned`); the call returns
without waiting for the process.  All failures occur before the spawn. -/
def launchAgentBrowser (leadId agentId : String) (now : Int) (s : SvcState) :
    Except LaunchError LaunchResult × SvcState :=
  match s.leads leadId with
  | none => (.error .leadNotFound, s)
  | some l =>
    match l.assignedTo with
    | none => (.error .notAssigned, s)
    | some a =>
      if a ≠ agentId then (.error .notAssigned, s)
      else
        match retrieveSession leadId now s with
        | (.error e, s') => (.error (.retrieveFailed e), s')
        | (.ok res, s') =>
          let ld : LaunchData :=
            { leadId := leadId, agentId := agentId, sessionData := res.sessionData,
              leadInfo := { firstName := l.firstName, lastName := l.lastName,
                            email := l.newEmail,
                            phone := if l.newPhone = "" then l.phone else l.newPhone,
                            country := l.country } }
          (.ok { success := true, launchData := ld },
           { s' with spawned := s'.spawned ++ [ld] })

/-- `$unset: { sessionData: 1 }` on a lead store (line 355-357); a no-op when
the lead does not exist. -/
def unsetLeadSession (leads : String → Option Lead) (lid : String) : String → Option Lead :=
  fun k => if k = lid then (leads k).map (fun l => { l with sessionData := none }) else leads k

/-- One iteration of the cleanup loop (lines 341-363): skip non-`.json`
names; a read or parse failure increments the error count; a record
strictly older than the cutoff is deleted and its lead's back-reference
cleared. -/
def cleanupStep (cutoff : Int) (st : SvcState × Nat × Nat) (name : String) : SvcState × Nat × Nat :=
  let s := st.1
  let del := st.2.1
  let err := st.2.2
  if name.endsWith ".json" then
    match fsRead s.files name with
    | some (.record r) =>
      if r.createdAt < cutoff then
        ({ s with files := fsDelete s.files name, leads := unsetLeadSession s.leads r.leadId },
         del + 1, err)
      else (s, del, err)
    | some .corrupt => (s, del, err + 1)
    | none => (s, del, err + 1)
  else (s, del, err)

/-- The `for` loop of lines 341-363 over the directory listing. -/
def cleanupLoop (cutoff : Int) : List String → SvcState × Nat × Nat → SvcState × Nat × Nat
  | [], st => st
  | n :: ns, st => cleanupLoop cutoff ns (cleanupStep cutoff st n)

/-- Result of `cleanupOldSessions` (lines 365-370). -/
structure CleanupResult where
  success : Bool
  deletedCount : Nat
  errorCount : Nat
deriving DecidableEq, Repr

/-- `cleanupOldSessions` (lines 332-376): compute the cutoff (`maxAgeDays`
before `nowMs`, one day being 86,400,000 ms), list the session directory
once, and run the per-file loop. -/
def cleanupOldSessions (nowMs maxAgeDays : Int) (s : SvcState) : CleanupResult × SvcState :=
  let cutoff := nowMs - maxAgeDays * 86400000
  let out := cleanupLoop cutoff (s.files.map (fun e => e.1)) (s, 0, 0)
  ({ success := true, deletedCount := out.2.1, errorCount := out.2.2 }, out.1)

/-! ## Auxiliary observers, predicates and sample data -/

/-- `true` exactly on `Except.ok`. -/
def exceptIsOk {ε α : Type} : Except ε α → Bool
  | .ok _ => true
  | .error _ => false

/-- The `navigator.deviceMemory` of a successful `createForLead` result. -/
def resultDeviceMemory : Except CreateError Fingerprint → Option Int
  | .ok fp => some fp.nav.deviceMemory
  | .error _ => none

/-- The value of `finalConfig` after the constraint-resolution phase
(lines 301-407), before jitter: the fully resolved profile skeleton. -/
def resolvedConfig (dt : String) (specs : Option DeviceSpecs) (ch : Choices) : Config :=
  applySpecs dt (configFor dt) specs ch

/-- A fixed assignment of random draws (every index 0, every draw 0). -/
def ch0 : Choices := {}

/-- A memory constraint whose range is inverted (`min > max`). -/
def invertedMemSpec : DeviceSpecs :=
  { hardware := some { memory := some { min := some 16, max := some 4 } } }

/-- Entry-level deletion predicate of the cleanup sweep: a `.json` session
file whose parsed record is strictly older than the cutoff. -/
def delPred (cutoff : Int) (e : String × FileContent) : Bool :=
  e.1.endsWith ".json" &&
    match e.2 with
    | .record r => decide (r.createdAt < cutoff)
    | .corrupt => false

/-- Entry-level error predicate of the cleanup sweep: a `.json` session file
whose content cannot be parsed. -/
def errPred (e : String × FileContent) : Bool :=
  e.1.endsWith ".json" &&
    match e.2 with
    | .record _ => false
    | .corrupt => true

/-- The lead id referenced by a deletable entry, if any. -/
def entryLeadId (e : String × FileContent) : Option String :=
  match e.2 with
  | .record r => some r.leadId
  | .corrupt => none

/-- Whether the sweep clears the back-reference of lead `lid`: some deletable
record names it. -/
def leadCleared (cutoff : Int) (fs : List (String × FileContent)) (lid : String) : Bool :=
  fs.any (fun e => delPred cutoff e && (entryLeadId e == some lid))

/-- Name-level deletion predicate, relative to a file store. -/
def delName (cutoff : Int) (fs : List (String × FileContent)) (n : String) : Bool :=
  n.endsWith ".json" &&
    match fsRead fs n with
    | some (.record r) => decide (r.createdAt < cutoff)
    | _ => false

/-- Name-level error predicate, relative to a file store (a name that cannot
be read or parsed). -/
def errName (fs : List (String × FileContent)) (n : String) : Bool :=
  n.endsWith ".json" &&
    match fsRead fs n with
    | some (.record _) => false
    | _ => true

/-- Name-level lead reference, relative to a file store. -/
def nameLeadId (fs : List (String × FileContent)) (n : String) : Option String :=
  match fsRead fs n with
  | some (.record r) => some r.leadId
  | _ => none

/-- Clear the `sessionData` back-reference of a (possibly missing) lead. -/
def clearLead : Option Lead → Option Lead :=
  Option.map (fun l => { l with sessionData := none })

/-- The back-reference after `assignSessionToAgent` sets the agent fields. -/
def assignedBackref (sd : LeadSessionData) (a : String) (n : Int) : LeadSessionData :=
  { sd with assignedAgent := some a, assignedAt := some n }

/-- The lead document after `assignSessionToAgent`, when it already carried
the back-reference `sd`. -/
def assignedLead (l : Lead) (sd : LeadSessionData) (a : String) (n : Int) : Lead :=
  { l with
    assignedTo := some a, assignedAt := some n, isAssigned := true,
    sessionData := some (assignedBackref sd a n) }

/-- Sample back-reference for the concrete counterexamples and witnesses. -/
def sampleBackref : LeadSessionData :=
  { sessionId := "session_L1_O1_100_aa",
    sessionPath := "browser_sessions/session_L1_O1_100_aa.json",
    createdAt := some 100, status := "active" }

/-- Sample lead that already carries an active session. -/
def sampleLead : Lead :=
  { sessionData := some sampleBackref, firstName := "Ann", lastName := "Lee",
    newEmail := "ann@example.com", phone := "123", country := "US" }

/-- Sample stored session record backing `sampleBackref`. -/
def sampleRecord : SessionRecord :=
  { sessionId := "session_L1_O1_100_aa", leadId := "L1", orderId := "O1",
    createdAt := 100, sessionData := { cookies := ["c1"] }, status := "active",
    lastUsed := 100 }

/-- Sample service state: lead `L1` with an active, readable session. -/
def sampleState : SvcState :=
  { files := [("browser_sessions/session_L1_O1_100_aa.json", .record sampleRecord)],
    leads := fun k => if k = "L1" then some sampleLead else none }

/-- The per-category core-count jitter bound: ±1 for the mobile categories,
±2 otherwise. -/
def coreJitterBound (dt : String) : Int :=
  if dt = "android" || dt = "ios" then 1 else 2

/-- `true` when `display.resolution.width` is present in the spec. -/
def widthConstrained (specs : Option DeviceSpecs) : Bool :=
  match specs with
  | none => false
  | some ds =>
    match ds.display with
    | none => false
    | some d =>
      match d.resolution with
      | none => false
      | some res => res.width.isSome

/-- `true` when `display.resolution.height` is present in the spec. -/
def heightConstrained (specs : Option DeviceSpecs) : Bool :=
  match specs with
  | none => false
  | some ds =>
    match ds.display with
    | none => false
    | some d =>
      match d.resolution with
      | none => false
      | some res => res.height.isSome

/-- `true` when `hardware.cpu.cores` is present in the spec. -/
def coresConstrained (specs : Option DeviceSpecs) : Bool :=
  match specs with
  | none => false
  | some ds =>
    match ds.hardware with
    | none => false
    | some hw =>
      match hw.cpu with
      | none => false
      | some c => c.cores.isSome

/-- A spec constraining only the width range (memory/cpu/height left
unconstrained), for the C4 witness. -/
def widthOnlySpec : DeviceSpecs :=
  { display := some { resolution := some { width := some { min := some 1000, max := some 1200 } } } }

/-! ## Frame lemmas for the synthesis phases -/

theorem applyBrowser_screen (dt : String) (cfg : Config) (b : BrowserSpec) (ch : Choices) :
    (applyBrowser dt cfg b ch).screen = cfg.screen := by
  unfold applyBrowser; split <;> rfl

theorem applyBrowser_deviceMemory (dt : String) (cfg : Config) (b : BrowserSpec) (ch : Choices) :
    (applyBrowser dt cfg b ch).nav.deviceMemory = cfg.nav.deviceMemory := by
  unfold applyBrowser; split <;> rfl

theorem applyBrowser_hardwareConcurrency (dt : String) (cfg : Config) (b : BrowserSpec) (ch : Choices) :
    (applyBrowser dt cfg b ch).nav.hardwareConcurrency = cfg.nav.hardwareConcurrency := by
  unfold applyBrowser; split <;> rfl

/-- The screen block of the resolution phase: only the `display` spec touches
it. -/
theorem applySpecs_screen (dt : String) (cfg : Config) (specs : Option DeviceSpecs) (ch : Choices) :
    (applySpecs dt cfg specs ch).screen =
      (match specs with
       | none => cfg.screen
       | some ds =>
         match ds.display with
         | none => cfg.screen
         | some d => applyDisplayScreen cfg.screen d ch) := by
  match specs with
  | none => rfl
  | some ds =>
    unfold applySpecs
    cases hh : ds.hardware <;> cases hd : ds.display <;>
      cases hb : ds.browser <;> cases ho : lookupAssoc ds.operatingSystem dt <;>
      cases hc : ds.characteristics <;>
      simp [hh, hd, hb, ho, hc, applyBrowser_screen, applyHardware, applyDisplay, applyOs,
        applyCharacteristics]

theorem applyHardwareNav_deviceMemory (nv : NavCfg) (hw : HardwareSpec) (ch : Choices) :
    (applyHardwareNav nv hw ch).deviceMemory =
      (match hw.memory with
       | none => nv.deviceMemory
       | some m =>
         if 0 < m.preferred.length then m.preferred.getD ch.memPick 0
         else ch.memDraw + jsOrI m.min 4) := rfl

theorem applyHardwareNav_hardwareConcurrency (nv : NavCfg) (hw : HardwareSpec) (ch : Choices) :
    (applyHardwareNav nv hw ch).hardwareConcurrency =
      (match hw.cpu with
       | none => nv.hardwareConcurrency
       | some c =>
         match c.cores with
         | none => nv.hardwareConcurrency
         | some cr => ch.coresDraw + jsOrI cr.min 2) := rfl

/-- The `deviceMemory` field of the resolution phase: only the
`hardware.memory` spec touches it. -/
theorem applySpecs_deviceMemory (dt : String) (cfg : Config) (specs : Option DeviceSpecs) (ch : Choices) :
    (applySpecs dt cfg specs ch).nav.deviceMemory =
      (match specs with
       | none => cfg.nav.deviceMemory
       | some ds =>
         match ds.hardware with
         | none => cfg.nav.deviceMemory
         | some hw =>
           match hw.memory with
           | none => cfg.nav.deviceMemory
           | some m =>
             if 0 < m.preferred.length then m.preferred.getD ch.memPick 0
             else ch.memDraw + jsOrI m.min 4) := by
  match specs with
  | none => rfl
  | some ds =>
    unfold applySpecs
    cases hh : ds.hardware <;> cases hd : ds.display <;>
      cases hb : ds.browser <;> cases ho : lookupAssoc ds.operatingSystem dt <;>
      cases hc : ds.characteristics <;>
      simp [hh, hd, hb, ho, hc, applyBrowser_deviceMemory, applyHardware, applyDisplay, applyOs,
        applyCharacteristics, applyHardwareNav_deviceMemory]

/-- The `hardwareConcurrency` field of the resolution phase: only the
`hardware.cpu.cores` spec touches it. -/
theorem applySpecs_hardwareConcurrency (dt : String) (cfg : Config) (specs : Option DeviceSpecs) (ch : Choices) :
    (applySpecs dt cfg specs ch).nav.hardwareConcurrency =
      (match specs with
       | none => cfg.nav.hardwareConcurrency
       | some ds =>
         match ds.hardware with
         | none => cfg.nav.hardwareConcurrency
         | some hw =>
           match hw.cpu with
           | none => cfg.nav.hardwareConcurrency
           | some c =>
             match c.cores with
             | none => cfg.nav.hardwareConcurrency
             | some cr => ch.coresDraw + jsOrI cr.min 2) := by
  match specs with
  | none => rfl
  | some ds =>
    unfold applySpecs
    cases hh : ds.hardware <;> cases hd : ds.display <;>
      cases hb : ds.browser <;> cases ho : lookupAssoc ds.operatingSystem dt <;>
      cases hc : ds.characteristics <;>
      simp [hh, hd, hb, ho, hc, applyBrowser_hardwareConcurrency, applyHardware, applyDisplay,
        applyOs, applyCharacteristics, applyHardwareNav_hardwareConcurrency]

/-- The width/height jitter is skipped exactly when the resolution spec is
present. -/
theorem applyJitter_screen (dt : String) (specs : Option DeviceSpecs) (ch : Choices) (cfg : Config) :
    (applyJitter dt specs ch cfg).screen =
      (if resolutionConstrained specs then cfg.screen
       else
         { cfg.screen with
           width := randomVariation cfg.screen.width screenVariations ch.jitterW,
           height := randomVariation cfg.screen.height screenVariations ch.jitterH,
           availWidth := randomVariation cfg.screen.width screenVariations ch.jitterW,
           availHeight := randomVariation cfg.screen.height screenVariations ch.jitterH - 40 }) := by
  unfold applyJitter
  split_ifs <;> rfl

/-- The core-count jitter is skipped exactly when the cpu spec is present. -/
theorem applyJitter_hardwareConcurrency (dt : String) (specs : Option DeviceSpecs) (ch : Choices) (cfg : Config) :
    (applyJitter dt specs ch cfg).nav.hardwareConcurrency =
      (if cpuConstrained specs then cfg.nav.hardwareConcurrency
       else randomVariation cfg.nav.hardwareConcurrency (coreVariations dt) ch.jitterC) := by
  unfold applyJitter
  split_ifs <;> rfl

/-- The memory jitter is skipped exactly when the memory spec is present. -/
theorem applyJitter_deviceMemory (dt : String) (specs : Option DeviceSpecs) (ch : Choices) (cfg : Config) :
    (applyJitter dt specs ch cfg).nav.deviceMemory =
      (if memoryConstrained specs then cfg.nav.deviceMemory
       else randomVariation cfg.nav.deviceMemory memVariations ch.jitterM) := by
  unfold applyJitter
  split_ifs <;> rfl

/-! ## Jitter bounds -/

theorem getD_abs_bound (vars : List Int) (b : Int)
    (h : ∀ v ∈ vars, -b ≤ v ∧ v ≤ b) :
    ∀ idx : Nat, idx < vars.length → -b ≤ vars.getD idx 0 ∧ vars.getD idx 0 ≤ b := by
  induction vars with
  | nil => intro idx hidx; simp at hidx
  | cons v vs ih =>
    intro idx hidx
    cases idx with
    | zero => simpa using h v (by simp)
    | succ n =>
      have := ih (fun w hw => h w (by simp [hw])) n (by simpa using hidx)
      simpa [List.getD] using this

/-- With an in-range index, a variation bounded by `b` and a base of at least
3 (every category default is), `randomVariation` lands in
`[base - b, base + b]` — the `Math.max(1, ·)` clamp is inert. -/
theorem randomVariation_band (base : Int) (vars : List Int) (idx : Nat) (b : Int)
    (hidx : idx < vars.length) (hb : ∀ v ∈ vars, -b ≤ v ∧ v ≤ b)
    (hbase : 3 ≤ base) (hbb : b ≤ 2) :
    base - b ≤ randomVariation base vars idx ∧ randomVariation base vars idx ≤ base + b := by
  have hv := getD_abs_bound vars b hb idx hidx
  have h1 : (1 : Int) ≤ base + vars.getD idx 0 := by omega
  unfold randomVariation
  rw [max_eq_right h1]
  omega

/-- Every category default (including the windows fallback) has all four
jittered numeric fields at least 3. -/
theorem configFor_bounds (dt : String) :
    3 ≤ (configFor dt).screen.width ∧ 3 ≤ (configFor dt).screen.height ∧
    3 ≤ (configFor dt).nav.hardwareConcurrency ∧ 3 ≤ (configFor dt).nav.deviceMemory := by
  unfold configFor
  split_ifs <;> decide

theorem screenVariations_bound : ∀ v ∈ screenVariations, -2 ≤ v ∧ v ≤ 2 := by decide

theorem memVariations_bound : ∀ v ∈ memVariations, -1 ≤ v ∧ v ≤ 1 := by decide


theorem coreVariations_bound (dt : String) :
    ∀ v ∈ coreVariations dt, -coreJitterBound dt ≤ v ∧ v ≤ coreJitterBound dt := by
  unfold coreVariations coreJitterBound
  split_ifs <;> decide

theorem coreJitterBound_le_two (dt : String) : coreJitterBound dt ≤ 2 := by
  unfold coreJitterBound; split_ifs <;> decide

/-! ## File-store lemmas -/

theorem fsRead_writeMap (fs : List (String × FileContent)) (p : String) (c : FileContent)
    (q : String) :
    fsRead (fs.map (fun e => if e.1 == p then (p, c) else e)) q =
      (if q = p then (if fs.any (fun e => e.1 == p) then some c else none)
       else fsRead fs q) := by
  unfold fsRead
  rw [List.find?_map]
  have hpred : ((fun e : String × FileContent => e.1 == q) ∘
      (fun e => if e.1 == p then (p, c) else e)) = fun e => e.1 == q := by
    funext e
    by_cases he : e.1 = p <;> simp [he]
  rw [hpred]
  by_cases hqp : q = p
  · subst hqp
    rw [if_pos rfl]
    by_cases hany : fs.any (fun e => e.1 == q) = true
    · cases hf : fs.find? (fun e => e.1 == q) with
      | none =>
        exfalso
        rw [List.find?_eq_none] at hf
        obtain ⟨x, hx, hpx⟩ := List.any_eq_true.mp hany
        exact hf x hx hpx
      | some r =>
        have hr := List.find?_some hf
        have hr' : r.1 = q := by simpa using hr
        simp [hf, hany, hr']
    · have hf : fs.find? (fun e => e.1 == q) = none := by
        rw [List.find?_eq_none]
        intro x hx hpx
        exact absurd (List.any_eq_true.mpr ⟨x, hx, hpx⟩) hany
      simp [hf, hany]
  · rw [if_neg hqp]
    cases hf : fs.find? (fun e => e.1 == q) with
    | none => simp [hf]
    | some r =>
      have hr := List.find?_some hf
      have hr' : r.1 = q := by simpa using hr
      simp [hf]
      rw [if_neg (fun h : r.1 = p => hqp (by rw [← hr', h]))]

theorem fsRead_appendNew (fs : List (String × FileContent)) (p : String) (c : FileContent)
    (q : String) (h : fs.any (fun e => e.1 == p) = false) :
    fsRead (fs ++ [(p, c)]) q = if q = p then some c else fsRead fs q := by
  unfold fsRead
  rw [List.find?_append]
  by_cases hqp : q = p
  · subst hqp
    have hf : fs.find? (fun e => e.1 == q) = none := by
      rw [List.find?_eq_none]
      intro x hx hpx
      have hx' : fs.any (fun e => e.1 == q) = true := List.any_eq_true.mpr ⟨x, hx, hpx⟩
      rw [hx'] at h
      exact Bool.noConfusion h
    simp [hf, List.find?]
  · have hpq : (p == q) = false := by
      simp
      intro h
      exact hqp h.symm
    cases hf : fs.find? (fun e => e.1 == q) with
    | none => simp [hf, List.find?, hpq, hqp]
    | some r => simp [hf, hqp]

/-- Reading after a write: the written path returns the new content; every
other path is unchanged. -/
theorem fsRead_fsWrite (fs : List (String × FileContent)) (p : String) (c : FileContent)
    (q : String) :
    fsRead (fsWrite fs p c) q = if q = p then some c else fsRead fs q := by
  unfold fsWrite
  by_cases hany : fs.any (fun e => e.1 == p) = true
  · rw [if_pos hany, fsRead_writeMap, hany]
    by_cases hqp : q = p <;> simp [hqp]
  · rw [if_neg hany]
    exact fsRead_appendNew fs p c q (Bool.eq_false_iff.mpr hany)

/-- Reading after a delete: the deleted path is gone; every other path is
unchanged. -/
theorem fsRead_fsDelete (fs : List (String × FileContent)) (p q : String) :
    fsRead (fsDelete fs p) q = if q = p then none else fsRead fs q := by
  unfold fsRead fsDelete
  by_cases hqp : q = p
  · subst hqp
    have hf : (fs.filter (fun e => !(e.1 == q))).find? (fun e => e.1 == q) = none := by
      rw [List.find?_eq_none]
      intro x hx
      have hmem := (List.mem_filter.mp hx).2
      simp at hmem
      simp [hmem]
    simp [hf]
  · rw [List.find?_filter]
    have hpred : (fun a : String × FileContent =>
        decide ((!(a.1 == p)) = true ∧ (a.1 == q) = true)) = fun a => a.1 == q := by
      funext a
      by_cases ha : a.1 = q
      · simp [ha, beq_iff_eq, hqp]
      · simp [ha]
    rw [hpred, if_neg hqp]

/-! ## C3 — unsupported device category -/

/-- C3: for every device category argument outside the fixed enum
{windows, android, ios, mac}, fingerprint synthesis through `createForLead`
fails rather than producing a fingerprint; for every non-empty such
category the error is the invalid-device-type (`UnsupportedCategory`)
error.  (An empty/missing category is caught one check earlier, by the
`deviceType is required` guard, and likewise produces no fingerprint.) -/
theorem createForLead_unsupported_category (store : List Fingerprint)
    (leadId dt createdBy : String) (specs : Option DeviceSpecs) (ch : Choices)
    (hdt : ¬ validDeviceTypes.contains dt) (hlid : leadId ≠ "") (hcb : createdBy ≠ "") :
    exceptIsOk (createForLead store leadId dt createdBy specs ch) = false ∧
    (dt ≠ "" → createForLead store leadId dt createdBy specs ch = .error (.invalidDeviceType dt)) := by
  have hdt' : dt ∉ validDeviceTypes := by simpa using hdt
  constructor
  · by_cases hdt0 : dt = ""
    · simp [createForLead, hlid, hdt0, exceptIsOk]
    · simp [createForLead, hlid, hcb, hdt0, hdt', exceptIsOk]
  · intro hdt0
    simp [createForLead, hlid, hcb, hdt0, hdt']

theorem createForLead_unsupported_category_witness :
    exceptIsOk (createForLead [] "L1" "tablet" "U1" none ch0) = false ∧
    createForLead [] "L1" "tablet" "U1" none ch0 = .error (.invalidDeviceType "tablet") := by
  have h := createForLead_unsupported_category [] "L1" "tablet" "U1" none ch0
    (by decide) (by decide) (by decide)
  exact ⟨h.1, h.2 (by decide)⟩

/-! ## C1 — inverted numeric ranges are not rejected -/

/-- C1 counterexample: a constraint spec with `memory.min = 16 > memory.max
= 4` is not rejected — `createForLead` succeeds (no `InvalidConstraint`
failure) and the synthesized `deviceMemory` is `16`, a value drawn by the
unvalidated formula rather than any error. -/
theorem constraint_min_gt_max_counterexample :
    resultDeviceMemory (createForLead [] "L1" "windows" "U1" (some invertedMemSpec) ch0) =
      some 16 := by
  decide

/-- C1 (amended): no numeric range of the constraint spec is validated —
for a memory range with (truthy) `min > max` and no preferred list,
synthesis succeeds and the resulting `deviceMemory` equals `memDraw + min`,
which for every possible draw lies in the inverted interval
`[max + 1, min]`; no `InvalidConstraint` error exists. -/
theorem createForLead_min_gt_max_succeeds
    (leadId dt createdBy : String) (ds : DeviceSpecs) (hw : HardwareSpec) (m : MemorySpec)
    (mn mx : Int) (ch : Choices)
    (hdt : validDeviceTypes.contains dt) (hlid : leadId ≠ "") (hcb : createdBy ≠ "")
    (hhw : ds.hardware = some hw) (hm : hw.memory = some m) (hpref : m.preferred = [])
    (hmn : m.min = some mn) (hmn0 : mn ≠ 0) (_hmx : m.max = some mx) (hlt : mx < mn)
    (hdraw : floorRangeB (mx - mn + 1) ch.memDraw = true) :
    createForLead [] leadId dt createdBy (some ds) ch =
      .ok { generateFingerprint dt createdBy (some ds) ch with leadId := some leadId } ∧
    mx + 1 ≤ (generateFingerprint dt createdBy (some ds) ch).nav.deviceMemory ∧
    (generateFingerprint dt createdBy (some ds) ch).nav.deviceMemory ≤ mn := by
  have hdt0 : dt ≠ "" := by
    intro h; rw [h] at hdt; exact absurd hdt (by decide)
  have hdt' : dt ∈ validDeviceTypes := by simpa using hdt
  have hok : createForLead [] leadId dt createdBy (some ds) ch =
      .ok { generateFingerprint dt createdBy (some ds) ch with leadId := some leadId } := by
    simp [createForLead, hlid, hcb, hdt0, hdt']
  have hmem : memoryConstrained (some ds) = true := by
    simp [memoryConstrained, hhw, hm]
  have hval : (generateFingerprint dt createdBy (some ds) ch).nav.deviceMemory =
      ch.memDraw + mn := by
    have h1 : (generateFingerprint dt createdBy (some ds) ch).nav.deviceMemory =
        (applyJitter dt (some ds) ch (applySpecs dt (configFor dt) (some ds) ch)).nav.deviceMemory := rfl
    rw [h1, applyJitter_deviceMemory, hmem, if_pos rfl, applySpecs_deviceMemory]
    simp [hhw, hm, hpref, hmn, jsOrI, hmn0]
  have hbound : mx - mn + 1 ≤ ch.memDraw ∧ ch.memDraw ≤ 0 := by
    unfold floorRangeB at hdraw
    rw [if_neg (by omega)] at hdraw
    simpa using hdraw
  exact ⟨hok, by omega, by omega⟩

theorem createForLead_min_gt_max_succeeds_witness :
    createForLead [] "L1" "windows" "U1" (some invertedMemSpec) ch0 =
      .ok { generateFingerprint "windows" "U1" (some invertedMemSpec) ch0 with leadId := some "L1" } ∧
    (4 : Int) + 1 ≤ (generateFingerprint "windows" "U1" (some invertedMemSpec) ch0).nav.deviceMemory ∧
    (generateFingerprint "windows" "U1" (some invertedMemSpec) ch0).nav.deviceMemory ≤ 16 :=
  createForLead_min_gt_max_succeeds "L1" "windows" "U1" invertedMemSpec
    { memory := some { min := some 16, max := some 4 } }
    { min := some 16, max := some 4 } 16 4 ch0
    (by decide) (by decide) (by decide) rfl rfl rfl rfl (by decide) rfl (by decide) (by decide)

/-! ## C5 — internal consistency of every synthesized fingerprint -/

theorem configFor_screen_invariant (dt : String) :
    (configFor dt).screen.availHeight ≤ (configFor dt).screen.height ∧
    (configFor dt).screen.availWidth ≤ (configFor dt).screen.width := by
  unfold configFor
  split_ifs <;> decide

theorem applyDisplayScreen_invariant (sc : ScreenCfg) (d : DisplaySpec) (ch : Choices)
    (h1 : sc.availHeight ≤ sc.height) (h2 : sc.availWidth ≤ sc.width) :
    (applyDisplayScreen sc d ch).availHeight ≤ (applyDisplayScreen sc d ch).height ∧
    (applyDisplayScreen sc d ch).availWidth ≤ (applyDisplayScreen sc d ch).width := by
  unfold applyDisplayScreen
  cases hres : d.resolution with
  | none =>
    cases hpr : d.pixelRatioSpec <;> split_ifs <;> simp_all
  | some res =>
    cases hw : res.width <;> cases hh : res.height <;> cases hpr : d.pixelRatioSpec <;>
      split_ifs <;> simp_all

/-- C5: every synthesized fingerprint, for every category and constraint
spec, is internally consistent — `availHeight ≤ height`,
`availWidth ≤ width`, and the plugin list is the single desktop PDF plugin
exactly for the desktop categories (windows, mac) and empty otherwise (in
particular for the mobile categories android and ios). -/
theorem generateFingerprint_internal_consistency (dt createdBy : String)
    (specs : Option DeviceSpecs) (ch : Choices) :
    (generateFingerprint dt createdBy specs ch).screen.availHeight ≤
      (generateFingerprint dt createdBy specs ch).screen.height ∧
    (generateFingerprint dt createdBy specs ch).screen.availWidth ≤
      (generateFingerprint dt createdBy specs ch).screen.width ∧
    (generateFingerprint dt createdBy specs ch).plugins =
      (if dt = "windows" || dt = "mac" then [pdfPlugin] else []) := by
  have hbase := configFor_screen_invariant dt
  have hR : (applySpecs dt (configFor dt) specs ch).screen.availHeight ≤
        (applySpecs dt (configFor dt) specs ch).screen.height ∧
      (applySpecs dt (configFor dt) specs ch).screen.availWidth ≤
        (applySpecs dt (configFor dt) specs ch).screen.width := by
    rw [applySpecs_screen]
    match specs with
    | none => exact hbase
    | some ds =>
      match hd : ds.display with
      | none => simp only [hd]; exact hbase
      | some d => simp only [hd]; exact applyDisplayScreen_invariant _ d ch hbase.1 hbase.2
  refine ⟨?_, ?_, rfl⟩
  · show (applyJitter dt specs ch (applySpecs dt (configFor dt) specs ch)).screen.availHeight ≤
      (applyJitter dt specs ch (applySpecs dt (configFor dt) specs ch)).screen.height
    rw [applyJitter_screen]
    by_cases hres : resolutionConstrained specs = true
    · rw [if_pos hres]; exact hR.1
    · rw [if_neg hres]; simp
  · show (applyJitter dt specs ch (applySpecs dt (configFor dt) specs ch)).screen.availWidth ≤
      (applyJitter dt specs ch (applySpecs dt (configFor dt) specs ch)).screen.width
    rw [applyJitter_screen]
    by_cases hres : resolutionConstrained specs = true
    · rw [if_pos hres]; exact hR.2
    · rw [if_neg hres]

/-! ## C4 — jitter only on unconstrained fields -/

theorem applyDisplayScreen_width (sc : ScreenCfg) (d : DisplaySpec) (ch : Choices) :
    (applyDisplayScreen sc d ch).width =
      (match d.resolution with
       | none => sc.width
       | some res =>
         match res.width with
         | none => sc.width
         | some wr => ch.widthDraw + jsOrI wr.min 1280) := by
  unfold applyDisplayScreen
  cases hres : d.resolution with
  | none => cases hpr : d.pixelRatioSpec <;> split_ifs <;> simp
  | some res =>
    cases hw : res.width <;> cases hh : res.height <;> cases hpr : d.pixelRatioSpec <;>
      split_ifs <;> simp [hw, hh]

theorem applyDisplayScreen_height (sc : ScreenCfg) (d : DisplaySpec) (ch : Choices) :
    (applyDisplayScreen sc d ch).height =
      (match d.resolution with
       | none => sc.height
       | some res =>
         match res.height with
         | none => sc.height
         | some hr => ch.heightDraw + jsOrI hr.min 720) := by
  unfold applyDisplayScreen
  cases hres : d.resolution with
  | none => cases hpr : d.pixelRatioSpec <;> split_ifs <;> simp
  | some res =>
    cases hw : res.width <;> cases hh : res.height <;> cases hpr : d.pixelRatioSpec <;>
      split_ifs <;> simp [hw, hh]


theorem applySpecs_width_of_not_res (dt : String) (cfg : Config) (specs : Option DeviceSpecs)
    (ch : Choices) (h : resolutionConstrained specs = false) :
    (applySpecs dt cfg specs ch).screen.width = cfg.screen.width := by
  rw [applySpecs_screen]
  match specs with
  | none => rfl
  | some ds =>
    match hd : ds.display with
    | none => simp [hd]
    | some d =>
      have hres : d.resolution = none := by
        simp only [resolutionConstrained, hd] at h
        simpa using h
      simp only [hd]
      rw [applyDisplayScreen_width, hres]

theorem applySpecs_height_of_not_res (dt : String) (cfg : Config) (specs : Option DeviceSpecs)
    (ch : Choices) (h : resolutionConstrained specs = false) :
    (applySpecs dt cfg specs ch).screen.height = cfg.screen.height := by
  rw [applySpecs_screen]
  match specs with
  | none => rfl
  | some ds =>
    match hd : ds.display with
    | none => simp [hd]
    | some d =>
      have hres : d.resolution = none := by
        simp only [resolutionConstrained, hd] at h
        simpa using h
      simp only [hd]
      rw [applyDisplayScreen_height, hres]

theorem applySpecs_cores_of_not_cpu (dt : String) (cfg : Config) (specs : Option DeviceSpecs)
    (ch : Choices) (h : cpuConstrained specs = false) :
    (applySpecs dt cfg specs ch).nav.hardwareConcurrency = cfg.nav.hardwareConcurrency := by
  rw [applySpecs_hardwareConcurrency]
  match specs with
  | none => rfl
  | some ds =>
    match hh : ds.hardware with
    | none => simp [hh]
    | some hw =>
      have hcpu : hw.cpu = none := by
        simp only [cpuConstrained, hh] at h
        simpa using h
      simp [hh, hcpu]

theorem applySpecs_mem_of_not_mem (dt : String) (cfg : Config) (specs : Option DeviceSpecs)
    (ch : Choices) (h : memoryConstrained specs = false) :
    (applySpecs dt cfg specs ch).nav.deviceMemory = cfg.nav.deviceMemory := by
  rw [applySpecs_deviceMemory]
  match specs with
  | none => rfl
  | some ds =>
    match hh : ds.hardware with
    | none => simp [hh]
    | some hw =>
      have hmem : hw.memory = none := by
        simp only [memoryConstrained, hh] at h
        simpa using h
      simp [hh, hmem]

/-- C4: constrained numeric fields come out exactly as resolved (no jitter),
and unconstrained ones land in the category default's jitter band.
Conjuncts, in order: (1) with a resolution spec, final width and height
equal the resolved skeleton's values exactly; (2,3) a resolution spec
missing its width (resp. height) range leaves that side at the category
default; (4) without a resolution spec, width and height land within ±2 of
the category default; (5) with a cpu spec, the final core count equals the
resolved value exactly; (6) a cpu spec without a cores range resolves to
the category default; (7) without a cpu spec, the core count lands within
±1 (mobile categories) or ±2 (otherwise) of the default; (8) with a memory
spec, the final memory equals the resolved value exactly; (9) without one,
memory lands within ±1 of the default. -/
theorem generateFingerprint_jitter_policy (dt createdBy : String)
    (specs : Option DeviceSpecs) (ch : Choices)
    (hW : ch.jitterW < 5) (hH : ch.jitterH < 5)
    (hC : ch.jitterC < (coreVariations dt).length) (hM : ch.jitterM < 3) :
    (resolutionConstrained specs = true →
      (generateFingerprint dt createdBy specs ch).screen.width =
        (resolvedConfig dt specs ch).screen.width ∧
      (generateFingerprint dt createdBy specs ch).screen.height =
        (resolvedConfig dt specs ch).screen.height) ∧
    (resolutionConstrained specs = true → widthConstrained specs = false →
      (resolvedConfig dt specs ch).screen.width = (configFor dt).screen.width) ∧
    (resolutionConstrained specs = true → heightConstrained specs = false →
      (resolvedConfig dt specs ch).screen.height = (configFor dt).screen.height) ∧
    (resolutionConstrained specs = false →
      (configFor dt).screen.width - 2 ≤ (generateFingerprint dt createdBy specs ch).screen.width ∧
      (generateFingerprint dt createdBy specs ch).screen.width ≤ (configFor dt).screen.width + 2 ∧
      (configFor dt).screen.height - 2 ≤ (generateFingerprint dt createdBy specs ch).screen.height ∧
      (generateFingerprint dt createdBy specs ch).screen.height ≤ (configFor dt).screen.height + 2) ∧
    (cpuConstrained specs = true →
      (generateFingerprint dt createdBy specs ch).nav.hardwareConcurrency =
        (resolvedConfig dt specs ch).nav.hardwareConcurrency) ∧
    (cpuConstrained specs = true → coresConstrained specs = false →
      (resolvedConfig dt specs ch).nav.hardwareConcurrency =
        (configFor dt).nav.hardwareConcurrency) ∧
    (cpuConstrained specs = false →
      (configFor dt).nav.hardwareConcurrency - coreJitterBound dt ≤
        (generateFingerprint dt createdBy specs ch).nav.hardwareConcurrency ∧
      (generateFingerprint dt createdBy specs ch).nav.hardwareConcurrency ≤
        (configFor dt).nav.hardwareConcurrency + coreJitterBound dt) ∧
    (memoryConstrained specs = true →
      (generateFingerprint dt createdBy specs ch).nav.deviceMemory =
        (resolvedConfig dt specs ch).nav.deviceMemory) ∧
    (memoryConstrained specs = false →
      (configFor dt).nav.deviceMemory - 1 ≤ (generateFingerprint dt createdBy specs ch).nav.deviceMemory ∧
      (generateFingerprint dt createdBy specs ch).nav.deviceMemory ≤ (configFor dt).nav.deviceMemory + 1) := by
  have hbounds := configFor_bounds dt
  refine ⟨?_, ?_, ?_, ?_, ?_, ?_, ?_, ?_, ?_⟩
  · intro hres
    constructor
    · show (applyJitter dt specs ch (resolvedConfig dt specs ch)).screen.width = _
      rw [applyJitter_screen, if_pos hres]
    · show (applyJitter dt specs ch (resolvedConfig dt specs ch)).screen.height = _
      rw [applyJitter_screen, if_pos hres]
  · intro hres hwc
    show (applySpecs dt (configFor dt) specs ch).screen.width = _
    rw [applySpecs_screen]
    match specs with
    | none => rfl
    | some ds =>
      match hd : ds.display with
      | none => simp [hd]
      | some d =>
        simp only [hd]
        rw [applyDisplayScreen_width]
        match hr : d.resolution with
        | none => rfl
        | some res =>
          have hwnone : res.width = none := by
            simp only [widthConstrained, hd, hr] at hwc
            simpa using hwc
          simp [hwnone]
  · intro hres hhc
    show (applySpecs dt (configFor dt) specs ch).screen.height = _
    rw [applySpecs_screen]
    match specs with
    | none => rfl
    | some ds =>
      match hd : ds.display with
      | none => simp [hd]
      | some d =>
        simp only [hd]
        rw [applyDisplayScreen_height]
        match hr : d.resolution with
        | none => rfl
        | some res =>
          have hhnone : res.height = none := by
            simp only [heightConstrained, hd, hr] at hhc
            simpa using hhc
          simp [hhnone]
  · intro hres
    have hwbase := applySpecs_width_of_not_res dt (configFor dt) specs ch hres
    have hhbase := applySpecs_height_of_not_res dt (configFor dt) specs ch hres
    have hwband := randomVariation_band (configFor dt).screen.width screenVariations ch.jitterW 2
      (by simpa [screenVariations] using hW) screenVariations_bound hbounds.1 (by decide)
    have hhband := randomVariation_band (configFor dt).screen.height screenVariations ch.jitterH 2
      (by simpa [screenVariations] using hH) screenVariations_bound hbounds.2.1 (by decide)
    have hwidth : (generateFingerprint dt createdBy specs ch).screen.width =
        randomVariation (configFor dt).screen.width screenVariations ch.jitterW := by
      show (applyJitter dt specs ch (resolvedConfig dt specs ch)).screen.width = _
      rw [applyJitter_screen, if_neg (by simp [hres])]
      show randomVariation (resolvedConfig dt specs ch).screen.width screenVariations ch.jitterW = _
      rw [show (resolvedConfig dt specs ch).screen.width = (configFor dt).screen.width from hwbase]
    have hheight : (generateFingerprint dt createdBy specs ch).screen.height =
        randomVariation (configFor dt).screen.height screenVariations ch.jitterH := by
      show (applyJitter dt specs ch (resolvedConfig dt specs ch)).screen.height = _
      rw [applyJitter_screen, if_neg (by simp [hres])]
      show randomVariation (resolvedConfig dt specs ch).screen.height screenVariations ch.jitterH = _
      rw [show (resolvedConfig dt specs ch).screen.height = (configFor dt).screen.height from hhbase]
    rw [hwidth, hheight]
    exact ⟨hwband.1, hwband.2, hhband.1, hhband.2⟩
  · intro hcpu
    show (applyJitter dt specs ch (resolvedConfig dt specs ch)).nav.hardwareConcurrency = _
    rw [applyJitter_hardwareConcurrency, if_pos hcpu]
  · intro hcpu hcoresc
    show (applySpecs dt (configFor dt) specs ch).nav.hardwareConcurrency = _
    rw [applySpecs_hardwareConcurrency]
    match specs with
    | none => rfl
    | some ds =>
      match hh : ds.hardware with
      | none => simp [hh]
      | some hw =>
        match hc : hw.cpu with
        | none => simp [hh, hc]
        | some c =>
          have hcores : c.cores = none := by
            simp only [coresConstrained, hh, hc] at hcoresc
            simpa using hcoresc
          simp [hh, hc, hcores]
  · intro hcpu
    have hbase := applySpecs_cores_of_not_cpu dt (configFor dt) specs ch hcpu
    have hband := randomVariation_band (configFor dt).nav.hardwareConcurrency (coreVariations dt)
      ch.jitterC (coreJitterBound dt) hC (coreVariations_bound dt) hbounds.2.2.1
      (coreJitterBound_le_two dt)
    have hval : (generateFingerprint dt createdBy specs ch).nav.hardwareConcurrency =
        randomVariation (configFor dt).nav.hardwareConcurrency (coreVariations dt) ch.jitterC := by
      show (applyJitter dt specs ch (resolvedConfig dt specs ch)).nav.hardwareConcurrency = _
      rw [applyJitter_hardwareConcurrency, if_neg (by simp [hcpu])]
      rw [show (resolvedConfig dt specs ch).nav.hardwareConcurrency =
        (configFor dt).nav.hardwareConcurrency from hbase]
    rw [hval]
    exact hband
  · intro hmem
    show (applyJitter dt specs ch (resolvedConfig dt specs ch)).nav.deviceMemory = _
    rw [applyJitter_deviceMemory, if_pos hmem]
  · intro hmem
    have hbase := applySpecs_mem_of_not_mem dt (configFor dt) specs ch hmem
    have hband := randomVariation_band (configFor dt).nav.deviceMemory memVariations
      ch.jitterM 1 (by simpa [memVariations] using hM) memVariations_bound hbounds.2.2.2
      (by decide)
    have hval : (generateFingerprint dt createdBy specs ch).nav.deviceMemory =
        randomVariation (configFor dt).nav.deviceMemory memVariations ch.jitterM := by
      show (applyJitter dt specs ch (resolvedConfig dt specs ch)).nav.deviceMemory = _
      rw [applyJitter_deviceMemory, if_neg (by simp [hmem])]
      rw [show (resolvedConfig dt specs ch).nav.deviceMemory =
        (configFor dt).nav.deviceMemory from hbase]
    rw [hval]
    exact hband


theorem generateFingerprint_jitter_policy_witness :
    ((generateFingerprint "windows" "U1" (some widthOnlySpec) ch0).screen.width =
       (resolvedConfig "windows" (some widthOnlySpec) ch0).screen.width ∧
     (generateFingerprint "windows" "U1" (some widthOnlySpec) ch0).screen.height =
       (resolvedConfig "windows" (some widthOnlySpec) ch0).screen.height) ∧
    ((configFor "windows").nav.deviceMemory - 1 ≤
       (generateFingerprint "windows" "U1" (some widthOnlySpec) ch0).nav.deviceMemory ∧
     (generateFingerprint "windows" "U1" (some widthOnlySpec) ch0).nav.deviceMemory ≤
       (configFor "windows").nav.deviceMemory + 1) :=
  ⟨(generateFingerprint_jitter_policy "windows" "U1" (some widthOnlySpec) ch0
      (by decide) (by decide) (by decide) (by decide)).1 (by decide),
   (generateFingerprint_jitter_policy "windows" "U1" (some widthOnlySpec) ch0
      (by decide) (by decide) (by decide) (by decide)).2.2.2.2.2.2.2.2 (by decide)⟩

theorem generateFingerprint_internal_consistency_witness :
    (generateFingerprint "android" "U1" none ch0).screen.availHeight ≤
      (generateFingerprint "android" "U1" none ch0).screen.height ∧
    (generateFingerprint "android" "U1" none ch0).screen.availWidth ≤
      (generateFingerprint "android" "U1" none ch0).screen.width ∧
    (generateFingerprint "android" "U1" none ch0).plugins =
      (if ("android" : String) = "windows" || ("android" : String) = "mac" then [pdfPlugin] else []) :=
  generateFingerprint_internal_consistency "android" "U1" none ch0

/-! ## C8 — retrieve is idempotent on the payload -/

/-- One successful `retrieveSession` call, fully characterized: it returns
the stored record's payload with `lastUsed` bumped to the call time, and
the only mutation to the state is rewriting that record with the new
`lastUsed`; leads and spawned processes are untouched. -/
theorem retrieveSession_ok (s : SvcState) (lid : String) (l : Lead) (sd : LeadSessionData)
    (r0 : SessionRecord) (n : Int)
    (hl : s.leads lid = some l) (hsd : l.sessionData = some sd) (hid : sd.sessionId ≠ "")
    (hf : fsRead s.files sd.sessionPath = some (.record r0)) :
    retrieveSession lid n s =
      (.ok { sessionData := r0.sessionData, sessionId := r0.sessionId,
             createdAt := r0.createdAt, lastUsed := n },
       { s with files := fsWrite s.files sd.sessionPath (.record { r0 with lastUsed := n }) }) := by
  unfold retrieveSession
  rw [hl]
  simp only [hsd, hf, hid]
  simp [hid]

/-- C8: two successive `retrieveSession` calls for a lead with a readable
active record both succeed and return identical payload content (and
identical `sessionId`/`createdAt`); the only field of the stored record the
first call mutates is `lastUsed` (the record is rewritten with `lastUsed :=
n1` and nothing else changes — leads and spawned processes included). -/
theorem retrieveSession_idempotent (s : SvcState) (lid : String) (l : Lead)
    (sd : LeadSessionData) (r0 : SessionRecord) (n1 n2 : Int)
    (hl : s.leads lid = some l) (hsd : l.sessionData = some sd) (hid : sd.sessionId ≠ "")
    (hf : fsRead s.files sd.sessionPath = some (.record r0)) :
    (retrieveSession lid n1 s).1 =
      .ok { sessionData := r0.sessionData, sessionId := r0.sessionId,
            createdAt := r0.createdAt, lastUsed := n1 } ∧
    (retrieveSession lid n2 (retrieveSession lid n1 s).2).1 =
      .ok { sessionData := r0.sessionData, sessionId := r0.sessionId,
            createdAt := r0.createdAt, lastUsed := n2 } ∧
    (retrieveSession lid n1 s).2.files =
      fsWrite s.files sd.sessionPath (.record { r0 with lastUsed := n1 }) ∧
    (retrieveSession lid n1 s).2.leads = s.leads ∧
    (retrieveSession lid n1 s).2.spawned = s.spawned := by
  have h1 := retrieveSession_ok s lid l sd r0 n1 hl hsd hid hf
  have hs1 : (retrieveSession lid n1 s).2 =
      { s with files := fsWrite s.files sd.sessionPath (.record { r0 with lastUsed := n1 }) } := by
    rw [h1]
  have hf1 : fsRead (retrieveSession lid n1 s).2.files sd.sessionPath =
      some (.record { r0 with lastUsed := n1 }) := by
    rw [hs1]
    simp [fsRead_fsWrite]
  have hl1 : (retrieveSession lid n1 s).2.leads lid = some l := by
    rw [hs1]; exact hl
  have h2 := retrieveSession_ok (retrieveSession lid n1 s).2 lid l sd
    { r0 with lastUsed := n1 } n2 hl1 hsd hid hf1
  refine ⟨by rw [h1], by rw [h2], by rw [hs1], by rw [hs1], by rw [hs1]⟩

theorem retrieveSession_idempotent_witness :
    (retrieveSession "L1" 300 sampleState).1 =
      .ok { sessionData := sampleRecord.sessionData, sessionId := sampleRecord.sessionId,
            createdAt := sampleRecord.createdAt, lastUsed := 300 } ∧
    (retrieveSession "L1" 400 (retrieveSession "L1" 300 sampleState).2).1 =
      .ok { sessionData := sampleRecord.sessionData, sessionId := sampleRecord.sessionId,
            createdAt := sampleRecord.createdAt, lastUsed := 400 } ∧
    (retrieveSession "L1" 300 sampleState).2.files =
      fsWrite sampleState.files sampleBackref.sessionPath
        (.record { sampleRecord with lastUsed := 300 }) ∧
    (retrieveSession "L1" 300 sampleState).2.leads = sampleState.leads ∧
    (retrieveSession "L1" 300 sampleState).2.spawned = sampleState.spawned :=
  retrieveSession_idempotent sampleState "L1" sampleLead sampleBackref sampleRecord 300 400
    rfl rfl (by decide) rfl

/-! ## C9 — absence vs. unavailability are distinct failures -/

/-- C9: `retrieveSession` distinguishes absence from corruption.  A missing
lead, a lead without a `sessionData` back-reference, or a back-reference
with a falsy `sessionId` all fail with the no-session error; a present
back-reference whose backing file is missing/inaccessible fails with the
file-unavailable error, and one whose file exists but cannot be parsed
fails with the parse-failure error.  Both of the latter are in the spec's
`SessionUnavailable` bucket and the former is not — the two kinds are never
conflated. -/
theorem retrieveSession_error_taxonomy (s : SvcState) (lid : String) (n : Int) :
    (s.leads lid = none → (retrieveSession lid n s).1 = .error .noSessionData) ∧
    (∀ l, s.leads lid = some l → l.sessionData = none →
      (retrieveSession lid n s).1 = .error .noSessionData) ∧
    (∀ l sd, s.leads lid = some l → l.sessionData = some sd → sd.sessionId = "" →
      (retrieveSession lid n s).1 = .error .noSessionData) ∧
    (∀ l sd, s.leads lid = some l → l.sessionData = some sd → sd.sessionId ≠ "" →
      fsRead s.files sd.sessionPath = none →
      (retrieveSession lid n s).1 = .error .fileUnavailable) ∧
    (∀ l sd, s.leads lid = some l → l.sessionData = some sd → sd.sessionId ≠ "" →
      fsRead s.files sd.sessionPath = some .corrupt →
      (retrieveSession lid n s).1 = .error .parseFailure) ∧
    isSessionUnavailable .noSessionData = false ∧
    isSessionUnavailable .fileUnavailable = true ∧
    isSessionUnavailable .parseFailure = true := by
  refine ⟨?_, ?_, ?_, ?_, ?_, rfl, rfl, rfl⟩
  · intro hl
    unfold retrieveSession
    rw [hl]
  · intro l hl hsd
    unfold retrieveSession
    rw [hl]
    simp [hsd]
  · intro l sd hl hsd hid
    unfold retrieveSession
    rw [hl]
    simp [hsd, hid]
  · intro l sd hl hsd hid hf
    unfold retrieveSession
    rw [hl]
    simp [hsd, hid, hf]
  · intro l sd hl hsd hid hf
    unfold retrieveSession
    rw [hl]
    simp [hsd, hid, hf]

/-- A lead with a back-reference whose session file is absent. -/
def orphanState : SvcState :=
  { files := [], leads := fun k => if k = "L1" then some sampleLead else none }

/-- A lead with a back-reference whose session file is unparseable. -/
def corruptState : SvcState :=
  { files := [("browser_sessions/session_L1_O1_100_aa.json", .corrupt)],
    leads := fun k => if k = "L1" then some sampleLead else none }

theorem retrieveSession_error_taxonomy_witness :
    (retrieveSession "L2" 0 sampleState).1 = .error .noSessionData ∧
    (retrieveSession "L1" 0 orphanState).1 = .error .fileUnavailable ∧
    (retrieveSession "L1" 0 corruptState).1 = .error .parseFailure ∧
    isSessionUnavailable .noSessionData = false ∧
    isSessionUnavailable .fileUnavailable = true :=
  ⟨(retrieveSession_error_taxonomy sampleState "L2" 0).1 rfl,
   (retrieveSession_error_taxonomy orphanState "L1" 0).2.2.2.1 sampleLead sampleBackref
     rfl rfl (by decide) rfl,
   (retrieveSession_error_taxonomy corruptState "L1" 0).2.2.2.2.1 sampleLead sampleBackref
     rfl rfl (by decide) rfl,
   (retrieveSession_error_taxonomy sampleState "L2" 0).2.2.2.2.2.1,
   (retrieveSession_error_taxonomy sampleState "L2" 0).2.2.2.2.2.2.1⟩

/-! ## C10 — hasActiveSession is a total boolean check -/

/-- C10: `hasActiveSession` always returns a boolean (it is a total
function of the state; every failure path of the source returns `false`),
and it returns `true` exactly when the lead exists, carries a
back-reference with a truthy `sessionId`, the backing session file is
accessible, and the back-reference status is `"active"`. -/
theorem hasActiveSession_characterization (s : SvcState) (lid : String) :
    hasActiveSession lid s = true ↔
      ∃ l sd, s.leads lid = some l ∧ l.sessionData = some sd ∧ sd.sessionId ≠ "" ∧
        (∃ c, fsRead s.files sd.sessionPath = some c) ∧ sd.status = "active" := by
  unfold hasActiveSession
  cases hl : s.leads lid with
  | none => simp
  | some l =>
    cases hsd : l.sessionData with
    | none => simp [hsd]
    | some sd =>
      by_cases hid : sd.sessionId = ""
      · simp [hsd, hid]
      · cases hf : fsRead s.files sd.sessionPath with
        | none => simp [hsd, hid, hf]
        | some c => simp [hsd, hid, hf, beq_iff_eq]

theorem hasActiveSession_characterization_witness :
    hasActiveSession "L1" sampleState = true ↔
      ∃ l sd, sampleState.leads "L1" = some l ∧ l.sessionData = some sd ∧ sd.sessionId ≠ "" ∧
        (∃ c, fsRead sampleState.files sd.sessionPath = some c) ∧ sd.status = "active" :=
  hasActiveSession_characterization sampleState "L1"

/-! ## C2 — a second capture silently overwrites -/

/-- C2 counterexample: lead `L1` already carries an active captured session,
yet a second `storeSession` call succeeds (there is no `DuplicateCapture`
failure path) and repoints the lead's back-reference from the old session
id to the freshly generated one — the existing back-reference is not left
unchanged. -/
theorem storeSession_duplicate_counterexample :
    (storeSession "L1" "O1" {} 200 "bb" sampleState).1.success = true ∧
    ((sampleState.leads "L1").bind (fun l => l.sessionData)).map (fun sd => sd.sessionId) =
      some "session_L1_O1_100_aa" ∧
    (((storeSession "L1" "O1" {} 200 "bb" sampleState).2.leads "L1").bind
        (fun l => l.sessionData)).map (fun sd => sd.sessionId) =
      some "session_L1_O1_200_bb" := by
  refine ⟨rfl, rfl, ?_⟩
  decide

/-- C2 (amended): `storeSession` performs no duplicate-capture check — a
capture for a lead that already has an active session record succeeds
unconditionally, writes the new record under a fresh session id and
repoints the lead's back-reference at it (preserving other back-reference
fields such as `assignedAgent`); the old record file stays on disk,
unreferenced, rather than being protected by a `DuplicateCapture`
failure. -/
theorem storeSession_overwrites (s : SvcState) (lid oid : String) (input : SessionInput)
    (now : Int) (rand : String) (l : Lead) (sd : LeadSessionData)
    (hl : s.leads lid = some l) (hsd : l.sessionData = some sd)
    (_hstatus : sd.status = "active")
    (hne : sessionsDir ++ generateSessionId lid oid now rand ++ ".json" ≠ sd.sessionPath) :
    (storeSession lid oid input now rand s).1.success = true ∧
    (storeSession lid oid input now rand s).1.sessionId = generateSessionId lid oid now rand ∧
    (storeSession lid oid input now rand s).2.leads lid =
      some { l with sessionData := some { sd with
        sessionId := generateSessionId lid oid now rand,
        sessionPath := sessionsDir ++ generateSessionId lid oid now rand ++ ".json",
        createdAt := some now, status := "active" } } ∧
    fsRead (storeSession lid oid input now rand s).2.files sd.sessionPath =
      fsRead s.files sd.sessionPath := by
  refine ⟨rfl, rfl, ?_, ?_⟩
  · show (if lid = lid then _ else _) = _
    rw [if_pos rfl, hl]
    simp [hsd]
  · show fsRead (fsWrite s.files _ _) sd.sessionPath = _
    rw [fsRead_fsWrite, if_neg (fun h => hne h.symm)]

theorem storeSession_overwrites_witness :
    (storeSession "L1" "O1" {} 200 "bb" sampleState).1.success = true ∧
    (storeSession "L1" "O1" {} 200 "bb" sampleState).1.sessionId =
      generateSessionId "L1" "O1" 200 "bb" ∧
    (storeSession "L1" "O1" {} 200 "bb" sampleState).2.leads "L1" =
      some { sampleLead with sessionData := some { sampleBackref with
        sessionId := generateSessionId "L1" "O1" 200 "bb",
        sessionPath := sessionsDir ++ generateSessionId "L1" "O1" 200 "bb" ++ ".json",
        createdAt := some 200, status := "active" } } ∧
    fsRead (storeSession "L1" "O1" {} 200 "bb" sampleState).2.files
        sampleBackref.sessionPath =
      fsRead sampleState.files sampleBackref.sessionPath :=
  storeSession_overwrites sampleState "L1" "O1" {} 200 "bb" sampleLead sampleBackref
    rfl rfl rfl (by decide)

/-! ## C6 — replay launch is gated on the assigned agent -/

theorem fsRead_assignFileUpdate_record (files : List (String × FileContent))
    (path a : String) (n : Int) (r : SessionRecord)
    (h : fsRead files path = some (.record r)) :
    fsRead (assignFileUpdate files path a n) path =
      some (.record (if path = "" then r
        else { r with assignedAgent := some a, assignedAt := some n })) := by
  unfold assignFileUpdate
  by_cases hp : path = ""
  · subst hp
    simp [h]
  · simp [hp, h, fsRead_fsWrite]

/-- C6: after the lead's session is assigned to agent `a1`, a replay launch
on behalf of a different agent `a2` fails with the assignment-mismatch
(`AccessDenied`) error and spawns no browser process (the state, including
the spawned-process list, is unchanged), while a replay launch by the
assigned agent `a1` succeeds and dispatches exactly one launch carrying
that lead and agent. -/
theorem launchReplay_access_control (s : SvcState) (lid a1 a2 : String)
    (l : Lead) (sd : LeadSessionData) (r : SessionRecord) (n0 n1 n2 : Int)
    (hagents : a1 ≠ a2)
    (hl : s.leads lid = some l) (hsd : l.sessionData = some sd)
    (hid : sd.sessionId ≠ "")
    (hf : fsRead s.files sd.sessionPath = some (.record r)) :
    (launchAgentBrowser lid a2 n1 (assignSessionToAgent lid a1 n0 s).2).1 =
      .error .notAssigned ∧
    (launchAgentBrowser lid a2 n1 (assignSessionToAgent lid a1 n0 s).2).2 =
      (assignSessionToAgent lid a1 n0 s).2 ∧
    (∃ ld : LaunchData,
      (launchAgentBrowser lid a1 n2 (assignSessionToAgent lid a1 n0 s).2).1 =
        .ok { success := true, launchData := ld } ∧
      ld.leadId = lid ∧ ld.agentId = a1 ∧
      (launchAgentBrowser lid a1 n2 (assignSessionToAgent lid a1 n0 s).2).2.spawned =
        s.spawned ++ [ld]) := by
  have hs1 : (assignSessionToAgent lid a1 n0 s).2 =
      { files := assignFileUpdate s.files sd.sessionPath a1 n0,
        leads := fun k => if k = lid then some (assignedLead l sd a1 n0) else s.leads k,
        spawned := s.spawned } := by
    unfold assignSessionToAgent
    rw [hl]
    simp [hsd, assignedLead, assignedBackref]
  have hl1 : (assignSessionToAgent lid a1 n0 s).2.leads lid = some (assignedLead l sd a1 n0) := by
    rw [hs1]
    simp
  have hf1 : fsRead (assignSessionToAgent lid a1 n0 s).2.files sd.sessionPath =
      some (.record (if sd.sessionPath = "" then r
        else { r with assignedAgent := some a1, assignedAt := some n0 })) := by
    rw [hs1]
    exact fsRead_assignFileUpdate_record s.files sd.sessionPath a1 n0 r hf
  have hassigned : (assignedLead l sd a1 n0).assignedTo = some a1 := rfl
  refine ⟨?_, ?_, ?_⟩
  · unfold launchAgentBrowser
    simp only [hl1, hassigned]
    simp [hagents]
  · unfold launchAgentBrowser
    simp only [hl1, hassigned]
    simp [hagents]
  · have hret := retrieveSession_ok (assignSessionToAgent lid a1 n0 s).2 lid
      (assignedLead l sd a1 n0) (assignedBackref sd a1 n0)
      (if sd.sessionPath = "" then r
        else { r with assignedAgent := some a1, assignedAt := some n0 }) n2 hl1 rfl hid hf1
    refine ⟨{ leadId := lid, agentId := a1,
              sessionData := (if sd.sessionPath = "" then r
                else { r with assignedAgent := some a1, assignedAt := some n0 }).sessionData,
              leadInfo := { firstName := (assignedLead l sd a1 n0).firstName,
                            lastName := (assignedLead l sd a1 n0).lastName,
                            email := (assignedLead l sd a1 n0).newEmail,
                            phone := if (assignedLead l sd a1 n0).newPhone = ""
                              then (assignedLead l sd a1 n0).phone
                              else (assignedLead l sd a1 n0).newPhone,
                            country := (assignedLead l sd a1 n0).country } }, ?_, rfl, rfl, ?_⟩
    · unfold launchAgentBrowser
      simp only [hl1, hassigned]
      rw [if_neg (by simp), hret]
    · unfold launchAgentBrowser
      simp only [hl1, hassigned]
      rw [if_neg (by simp), hret]
      simp [hs1]

/-! ## C7 — expiry sweep -/

theorem clearLead_clearLead (x : Option Lead) : clearLead (clearLead x) = clearLead x := by
  cases x <;> rfl

theorem anyCongr {α : Type} {p q : α → Bool} {l : List α} (h : ∀ a ∈ l, p a = q a) :
    l.any p = l.any q := by
  induction l with
  | nil => rfl
  | cons a l ih =>
    simp only [List.any_cons, h a (by simp), ih (fun b hb => h b (by simp [hb]))]

theorem anyMapFst {β : Type} (l : List (String × β)) (p : String → Bool) :
    (l.map (fun e => e.1)).any p = l.any (fun e => p e.1) := by
  induction l with
  | nil => rfl
  | cons a l ih => simp [ih]

theorem filterMapFstLength {β : Type} (l : List (String × β)) (p : String → Bool) :
    ((l.map (fun e => e.1)).filter p).length = (l.filter (fun e => p e.1)).length := by
  induction l with
  | nil => rfl
  | cons a l ih => by_cases h : p a.1 <;> simp [List.filter_cons, h, ih]

theorem delName_read_congr (c : Int) (fs fs' : List (String × FileContent)) (m : String)
    (h : fsRead fs' m = fsRead fs m) : delName c fs' m = delName c fs m := by
  unfold delName
  rw [h]

theorem errName_read_congr (fs fs' : List (String × FileContent)) (m : String)
    (h : fsRead fs' m = fsRead fs m) : errName fs' m = errName fs m := by
  unfold errName
  rw [h]

theorem nameLeadId_read_congr (fs fs' : List (String × FileContent)) (m : String)
    (h : fsRead fs' m = fsRead fs m) : nameLeadId fs' m = nameLeadId fs m := by
  unfold nameLeadId
  rw [h]

/-- With pairwise-distinct keys (true of a real directory), reading a stored
entry's path yields that entry. -/
theorem fsRead_self_of_nodup (fs : List (String × FileContent))
    (hnd : (fs.map (fun e => e.1)).Nodup) :
    ∀ e ∈ fs, fsRead fs e.1 = some e.2 := by
  induction fs with
  | nil => intro e he; cases he
  | cons f fs ih =>
    intro e he
    simp only [List.map_cons, List.nodup_cons] at hnd
    rcases List.mem_cons.mp he with he | he
    · subst he
      simp [fsRead, List.find?_cons]
    · have hne : f.1 ≠ e.1 := by
        intro hcontra
        exact hnd.1 (hcontra ▸ List.mem_map_of_mem (fun x => x.1) he)
      have := ih hnd.2 e he
      simpa [fsRead, List.find?_cons, beq_eq_false_iff_ne, hne] using this

/-- Full characterization of the cleanup loop over a duplicate-free listing:
final files, both counters, untouched spawned list, and per-lead effect,
all relative to the pre-loop state. -/
theorem cleanupLoop_spec (cutoff : Int) (ns : List String) :
    ∀ (s : SvcState) (d e : Nat), ns.Nodup →
      (cleanupLoop cutoff ns (s, d, e)).1.files =
        s.files.filter (fun ent => !(ns.contains ent.1 && delName cutoff s.files ent.1)) ∧
      (cleanupLoop cutoff ns (s, d, e)).2.1 = d + (ns.filter (delName cutoff s.files)).length ∧
      (cleanupLoop cutoff ns (s, d, e)).2.2 = e + (ns.filter (errName s.files)).length ∧
      (cleanupLoop cutoff ns (s, d, e)).1.spawned = s.spawned ∧
      ∀ lid, (cleanupLoop cutoff ns (s, d, e)).1.leads lid =
        (if ns.any (fun n => delName cutoff s.files n && (nameLeadId s.files n == some lid))
         then clearLead (s.leads lid) else s.leads lid) := by
  induction ns with
  | nil =>
    intro s d e _
    simp [cleanupLoop]
  | cons n ns ih =>
    intro s d e hnd
    obtain ⟨hn, hnd'⟩ := List.nodup_cons.mp hnd
    have hloop : cleanupLoop cutoff (n :: ns) (s, d, e) =
        cleanupLoop cutoff ns (cleanupStep cutoff (s, d, e) n) := rfl
    by_cases hjson : n.endsWith ".json"
    · cases hread : fsRead s.files n with
      | none =>
        have hstep : cleanupStep cutoff (s, d, e) n = (s, d, e + 1) := by
          simp [cleanupStep, hjson, hread]
        have hdel : delName cutoff s.files n = false := by
          simp [delName, hread]
        have herr : errName s.files n = true := by
          simp [errName, hjson, hread]
        rw [hloop, hstep]
        obtain ⟨ih1, ih2, ih3, ih4, ih5⟩ := ih s d (e + 1) hnd'
        refine ⟨?_, ?_, ?_, ih4, ?_⟩
        · rw [ih1]
          apply List.filter_congr
          intro ent _
          by_cases hen : ent.1 = n <;> simp [hen, hdel]
        · rw [ih2, List.filter_cons_of_neg (by simp [hdel])]
        · rw [ih3, List.filter_cons_of_pos herr]
          simp
          omega
        · intro lid
          rw [ih5 lid, List.any_cons]
          simp [hdel]
      | some fc =>
        cases fc with
        | corrupt =>
          have hstep : cleanupStep cutoff (s, d, e) n = (s, d, e + 1) := by
            simp [cleanupStep, hjson, hread]
          have hdel : delName cutoff s.files n = false := by
            simp [delName, hread]
          have herr : errName s.files n = true := by
            simp [errName, hjson, hread]
          rw [hloop, hstep]
          obtain ⟨ih1, ih2, ih3, ih4, ih5⟩ := ih s d (e + 1) hnd'
          refine ⟨?_, ?_, ?_, ih4, ?_⟩
          · rw [ih1]
            apply List.filter_congr
            intro ent _
            by_cases hen : ent.1 = n <;> simp [hen, hdel]
          · rw [ih2, List.filter_cons_of_neg (by simp [hdel])]
          · rw [ih3, List.filter_cons_of_pos herr]
            simp
            omega
          · intro lid
            rw [ih5 lid, List.any_cons]
            simp [hdel]
        | record r =>
          by_cases hold : r.createdAt < cutoff
          · -- deletable record: file removed, lead back-reference cleared
            have hstep : cleanupStep cutoff (s, d, e) n =
                ({ files := fsDelete s.files n, leads := unsetLeadSession s.leads r.leadId,
                   spawned := s.spawned }, d + 1, e) := by
              simp [cleanupStep, hjson, hread, hold]
            have hdel : delName cutoff s.files n = true := by
              simp [delName, hjson, hread, hold]
            have herr : errName s.files n = false := by
              simp [errName, hread]
            have hlead : nameLeadId s.files n = some r.leadId := by
              simp [nameLeadId, hread]
            have hreads : ∀ m, m ≠ n → fsRead (fsDelete s.files n) m = fsRead s.files m := by
              intro m hm
              rw [fsRead_fsDelete, if_neg hm]
            have hmem_ne : ∀ m ∈ ns, m ≠ n := fun m hm hcontra => hn (hcontra ▸ hm)
            rw [hloop, hstep]
            obtain ⟨ih1, ih2, ih3, ih4, ih5⟩ := ih
              { files := fsDelete s.files n, leads := unsetLeadSession s.leads r.leadId,
                spawned := s.spawned } (d + 1) e hnd'
            refine ⟨?_, ?_, ?_, ih4, ?_⟩
            · rw [ih1]
              show (List.filter _ (List.filter _ s.files)) = _
              rw [List.filter_filter]
              apply List.filter_congr
              intro ent _
              by_cases hen : ent.1 = n
              · simp [hen, hdel]
              · rw [delName_read_congr cutoff s.files (fsDelete s.files n) ent.1
                  (hreads ent.1 hen)]
                simp [hen]
            · rw [ih2, List.filter_congr
                  (fun m hm => delName_read_congr cutoff s.files (fsDelete s.files n) m
                    (hreads m (hmem_ne m hm))),
                List.filter_cons_of_pos hdel]
              simp
              omega
            · rw [ih3, List.filter_congr
                  (fun m hm => errName_read_congr s.files (fsDelete s.files n) m
                    (hreads m (hmem_ne m hm))),
                List.filter_cons_of_neg (by simp [herr])]
            · intro lid
              rw [ih5 lid, List.any_cons]
              have hany : (ns.any fun m =>
                  delName cutoff (fsDelete s.files n) m &&
                    (nameLeadId (fsDelete s.files n) m == some lid)) =
                  (ns.any fun m => delName cutoff s.files m && (nameLeadId s.files m == some lid)) := by
                apply anyCongr
                intro m hm
                rw [delName_read_congr cutoff s.files (fsDelete s.files n) m
                    (hreads m (hmem_ne m hm)),
                  nameLeadId_read_congr s.files (fsDelete s.files n) m
                    (hreads m (hmem_ne m hm))]
              rw [hany]
              have hproj : ({ files := fsDelete s.files n,
                              leads := unsetLeadSession s.leads r.leadId,
                              spawned := s.spawned } : SvcState).leads lid =
                  unsetLeadSession s.leads r.leadId lid := rfl
              have hunset : unsetLeadSession s.leads r.leadId lid =
                  (if lid = r.leadId then clearLead (s.leads lid) else s.leads lid) := by
                unfold unsetLeadSession clearLead
                by_cases hlid : lid = r.leadId <;> simp [hlid]
              by_cases hlid : lid = r.leadId
              · have hpredn : (delName cutoff s.files n &&
                    (nameLeadId s.files n == some lid)) = true := by
                  simp [hdel, hlead, hlid]
                rw [hpredn, hproj, hunset, if_pos hlid]
                simp only [Bool.true_or, if_pos]
                by_cases hrest : (ns.any fun m =>
                    delName cutoff s.files m && (nameLeadId s.files m == some lid)) = true
                · rw [if_pos hrest, clearLead_clearLead]
                · rw [if_neg hrest]
              · have hpredn : (delName cutoff s.files n &&
                    (nameLeadId s.files n == some lid)) = false := by
                  simp [hdel, hlead]
                  intro hcontra
                  exact absurd hcontra.symm hlid
                rw [hpredn, hproj, hunset, if_neg hlid]
                simp only [Bool.false_or]
          · -- fresh record: untouched
            have hstep : cleanupStep cutoff (s, d, e) n = (s, d, e) := by
              simp [cleanupStep, hjson, hread, hold]
            have hdel : delName cutoff s.files n = false := by
              simp [delName, hread, hold]
            have herr : errName s.files n = false := by
              simp [errName, hread]
            rw [hloop, hstep]
            obtain ⟨ih1, ih2, ih3, ih4, ih5⟩ := ih s d e hnd'
            refine ⟨?_, ?_, ?_, ih4, ?_⟩
            · rw [ih1]
              apply List.filter_congr
              intro ent _
              by_cases hen : ent.1 = n <;> simp [hen, hdel]
            · rw [ih2, List.filter_cons_of_neg (by simp [hdel])]
            · rw [ih3, List.filter_cons_of_neg (by simp [herr])]
            · intro lid
              rw [ih5 lid, List.any_cons]
              simp [hdel]
    · -- not a .json file: skipped entirely
      have hstep : cleanupStep cutoff (s, d, e) n = (s, d, e) := by
        simp [cleanupStep, hjson]
      have hdel : delName cutoff s.files n = false := by
        simp [delName, hjson]
      have herr : errName s.files n = false := by
        simp [errName, hjson]
      rw [hloop, hstep]
      obtain ⟨ih1, ih2, ih3, ih4, ih5⟩ := ih s d e hnd'
      refine ⟨?_, ?_, ?_, ih4, ?_⟩
      · rw [ih1]
        apply List.filter_congr
        intro ent _
        by_cases hen : ent.1 = n <;> simp [hen, hdel]
      · rw [ih2, List.filter_cons_of_neg (by simp [hdel])]
      · rw [ih3, List.filter_cons_of_neg (by simp [herr])]
      · intro lid
        rw [ih5 lid, List.any_cons]
        simp [hdel]

theorem delName_eq_delPred (c : Int) (fs : List (String × FileContent))
    (hnd : (fs.map (fun e => e.1)).Nodup) (ent : String × FileContent) (he : ent ∈ fs) :
    delName c fs ent.1 = delPred c ent := by
  unfold delName delPred
  rw [fsRead_self_of_nodup fs hnd ent he]
  cases ent.2 <;> rfl

theorem errName_eq_errPred (fs : List (String × FileContent))
    (hnd : (fs.map (fun e => e.1)).Nodup) (ent : String × FileContent) (he : ent ∈ fs) :
    errName fs ent.1 = errPred ent := by
  unfold errName errPred
  rw [fsRead_self_of_nodup fs hnd ent he]
  cases ent.2 <;> rfl

theorem nameLeadId_eq_entryLeadId (fs : List (String × FileContent))
    (hnd : (fs.map (fun e => e.1)).Nodup) (ent : String × FileContent) (he : ent ∈ fs) :
    nameLeadId fs ent.1 = entryLeadId ent := by
  unfold nameLeadId entryLeadId
  rw [fsRead_self_of_nodup fs hnd ent he]
  cases ent.2 <;> rfl

/-- C7: the expiry sweep, over a session directory with pairwise-distinct
file paths, deletes exactly the parseable `.json` records whose creation
time is strictly older than the cutoff (`nowMs` minus `maxAgeDays` days)
and leaves every newer record untouched; it clears the back-reference of
exactly the leads named by a deleted record; every unreadable/unparseable
`.json` file only increments the returned error count (processing
continues, the sweep always completes with `success`); and the returned
counts are the number of deleted records and of errored files. -/
theorem cleanupOldSessions_correct (nowMs maxAgeDays : Int) (s : SvcState)
    (hnd : (s.files.map (fun e => e.1)).Nodup) :
    (cleanupOldSessions nowMs maxAgeDays s).2.files =
      s.files.filter (fun e => !delPred (nowMs - maxAgeDays * 86400000) e) ∧
    (cleanupOldSessions nowMs maxAgeDays s).1.deletedCount =
      (s.files.filter (delPred (nowMs - maxAgeDays * 86400000))).length ∧
    (cleanupOldSessions nowMs maxAgeDays s).1.errorCount =
      (s.files.filter errPred).length ∧
    (cleanupOldSessions nowMs maxAgeDays s).1.success = true ∧
    (cleanupOldSessions nowMs maxAgeDays s).2.spawned = s.spawned ∧
    ∀ lid, (cleanupOldSessions nowMs maxAgeDays s).2.leads lid =
      (if leadCleared (nowMs - maxAgeDays * 86400000) s.files lid
       then clearLead (s.leads lid) else s.leads lid) := by
  obtain ⟨h1, h2, h3, h4, h5⟩ := cleanupLoop_spec (nowMs - maxAgeDays * 86400000)
    (s.files.map (fun e => e.1)) s 0 0 hnd
  refine ⟨?_, ?_, ?_, rfl, h4, ?_⟩
  · show (cleanupLoop _ _ (s, 0, 0)).1.files = _
    rw [h1]
    apply List.filter_congr
    intro ent hent
    have hc : (s.files.map (fun e => e.1)).contains ent.1 = true :=
      List.elem_eq_true_of_mem (List.mem_map_of_mem (fun e => e.1) hent)
    rw [hc, delName_eq_delPred _ s.files hnd ent hent]
    simp
  · show (cleanupLoop _ _ (s, 0, 0)).2.1 = _
    rw [h2, filterMapFstLength]
    have hfc : List.filter
        (fun ent : String × FileContent => delName (nowMs - maxAgeDays * 86400000) s.files ent.1)
        s.files = List.filter (delPred (nowMs - maxAgeDays * 86400000)) s.files := by
      apply List.filter_congr
      intro ent hent
      exact delName_eq_delPred (nowMs - maxAgeDays * 86400000) s.files hnd ent hent
    rw [hfc]
    simp
  · show (cleanupLoop _ _ (s, 0, 0)).2.2 = _
    rw [h3, filterMapFstLength]
    have hfc : List.filter (fun ent : String × FileContent => errName s.files ent.1) s.files =
        List.filter errPred s.files := by
      apply List.filter_congr
      intro ent hent
      exact errName_eq_errPred s.files hnd ent hent
    rw [hfc]
    simp
  · intro lid
    show (cleanupLoop _ _ (s, 0, 0)).1.leads lid = _
    rw [h5 lid]
    have hany : ((s.files.map (fun e => e.1)).any fun n =>
        delName (nowMs - maxAgeDays * 86400000) s.files n &&
          (nameLeadId s.files n == some lid)) =
        leadCleared (nowMs - maxAgeDays * 86400000) s.files lid := by
      rw [anyMapFst]
      apply anyCongr
      intro ent hent
      rw [delName_eq_delPred _ s.files hnd ent hent,
        nameLeadId_eq_entryLeadId s.files hnd ent hent]
    rw [hany]

/-- A record old enough to be swept (for the C7 witness). -/
def staleRecord : SessionRecord :=
  { sessionId := "session_L1_O1_100_cc", leadId := "L1", orderId := "O1",
    createdAt := 100, sessionData := {}, status := "active", lastUsed := 100 }

/-- A record newer than the cutoff (for the C7 witness). -/
def freshRecord : SessionRecord :=
  { sessionId := "session_L2_O1_200_dd", leadId := "L2", orderId := "O1",
    createdAt := 5184000000, sessionData := {}, status := "active", lastUsed := 5184000000 }

/-- A directory with one stale record, one fresh record and one corrupt
file, plus the two referenced leads (for the C7 witness). -/
def sweepState : SvcState :=
  { files := [("browser_sessions/session_L1_O1_100_cc.json", .record staleRecord),
              ("browser_sessions/session_L2_O1_200_dd.json", .record freshRecord),
              ("browser_sessions/broken.json", .corrupt)],
    leads := fun k => if k = "L1" then some sampleLead
      else if k = "L2" then some {} else none }

theorem cleanupOldSessions_correct_witness :
    (cleanupOldSessions 2592001000 30 sweepState).2.files =
      sweepState.files.filter (fun e => !delPred (2592001000 - 30 * 86400000) e) ∧
    (cleanupOldSessions 2592001000 30 sweepState).1.deletedCount =
      (sweepState.files.filter (delPred (2592001000 - 30 * 86400000))).length ∧
    (cleanupOldSessions 2592001000 30 sweepState).1.errorCount =
      (sweepState.files.filter errPred).length ∧
    (cleanupOldSessions 2592001000 30 sweepState).1.success = true ∧
    (cleanupOldSessions 2592001000 30 sweepState).2.leads "L1" =
      (if leadCleared (2592001000 - 30 * 86400000) sweepState.files "L1"
       then clearLead (sweepState.leads "L1") else sweepState.leads "L1") ∧
    (cleanupOldSessions 2592001000 30 sweepState).2.leads "L2" =
      (if leadCleared (2592001000 - 30 * 86400000) sweepState.files "L2"
       then clearLead (sweepState.leads "L2") else sweepState.leads "L2") := by
  have h := cleanupOldSessions_correct 2592001000 30 sweepState (by decide)
  exact ⟨h.1, h.2.1, h.2.2.1, h.2.2.2.1, h.2.2.2.2.2 "L1", h.2.2.2.2.2 "L2"⟩

theorem launchReplay_access_control_witness :
    (launchAgentBrowser "L1" "A2" 600 (assignSessionToAgent "L1" "A1" 500 sampleState).2).1 =
      .error .notAssigned ∧
    (launchAgentBrowser "L1" "A2" 600 (assignSessionToAgent "L1" "A1" 500 sampleState).2).2 =
      (assignSessionToAgent "L1" "A1" 500 sampleState).2 ∧
    (∃ ld : LaunchData,
      (launchAgentBrowser "L1" "A1" 700 (assignSessionToAgent "L1" "A1" 500 sampleState).2).1 =
        .ok { success := true, launchData := ld } ∧
      ld.leadId = "L1" ∧ ld.agentId = "A1" ∧
      (launchAgentBrowser "L1" "A1" 700 (assignSessionToAgent "L1" "A1" 500 sampleState).2).2.spawned =
        sampleState.spawned ++ [ld]) :=
  launchReplay_access_control sampleState "L1" "A1" "A2" sampleLead sampleBackref
    sampleRecord 500 600 700 (by decide) rfl rfl (by decide) rfl

end Repo
